import Mathlib

/-!
# nvBowtie scoring streams (score_inl.h)

A shallow embedding of the scoring streams of
`nvBowtie/bowtie2/cuda/score_inl.h` and the properties of the alignment-scoring
core that are checked against it.

Conventions of the embedding:

* `uint32` values are natural numbers below `2^32`; every `uint32` arithmetic
  result is reduced modulo `4294967296` (`uadd`, `usub`).
* `int32` values are integers in `[-2^31, 2^31)`; every `int32` arithmetic result
  is reduced by two-complement wraparound (`wrap32`), which is what the target
  hardware does.
* A stream method that mutates the context through a pointer takes the prior
  context and returns the new one; `output` returns the new pipeline state.
* Code the header only includes (the scoring scheme, `compute_target_score`,
  `frame_opposite_mate`, `aln::max_text_gaps`, the sink constructors) is a field
  of `Env`, left uninterpreted.
-/

namespace nvbio
namespace bowtie2
namespace cuda

/-! ## Machine integers -/

/-- Sum of two `uint32` values. -/
def uadd (a b : Nat) : Nat := (a + b) % 4294967296

/-- Difference of two `uint32` values (wraps below zero). -/
def usub (a b : Nat) : Nat := (a + (4294967296 - b % 4294967296)) % 4294967296

/-- Reduction of a mathematical integer to the `int32` range. -/
def wrap32 (x : Int) : Int := (x + 2147483648) % 4294967296 - 2147483648

/-- Conversion of an `int32` to `uint32`. -/
def int_to_u32 (x : Int) : Nat := (x % 4294967296).toNat

/-- The constant `Field_traits<int32>::max()`. -/
def int32_max : Int := 2147483647

/-! ## Data model -/

/-- The pair type `uint2`. -/
structure uint2 where
  x : Nat
  y : Nat
deriving DecidableEq, Repr

/-- The record `io::Alignment`: position, edit distance, score, strand, mate. -/
structure Alignment where
  m_align : Nat
  m_ed : Nat
  score : Int
  m_rc : Nat
  m_mate : Nat
deriving DecidableEq, Repr

/-- The record `io::BestPairedAlignments`: best and second-best alignment of the
anchor (`m_a1`, `m_a2`) and of the opposite mate (`m_o1`, `m_o2`). -/
structure BestPairedAlignments where
  m_a1 : Alignment
  m_a2 : Alignment
  m_o1 : Alignment
  m_o2 : Alignment
deriving DecidableEq, Repr

/-- A hit of the scoring queues, as seen through `HitReference`. -/
structure Hit where
  read_id : Nat
  seed_rc : Nat
  loc : Nat
  score : Int
  sink : Nat
  opposite_loc : Nat
  opposite_score : Int
  opposite_sink : Nat
  opposite_score2 : Int
  opposite_sink2 : Nat
deriving DecidableEq, Repr

/-- The sink `aln::BestSink<int32>`: best score and its end point. -/
structure BestSink where
  score : Int
  sink : uint2
deriving DecidableEq, Repr

/-- The sink `aln::BestColumnSink<int32,20>`: a table of scores and end points. -/
structure BestColumnSink where
  scores : Nat → Int
  sinks : Nat → uint2

/-- The per-item alignment context, over the sink type of the stream. -/
structure AlignmentContext (σ : Type) where
  idx : Nat
  mate : Nat
  read_rc : Nat
  read_id : Nat
  read_range : uint2
  genome_begin : Nat
  genome_end : Nat
  min_score : Int
  sink : σ

/-- The fields of `ParamsPOD` read by the streams. -/
structure ParamsPOD where
  pe_policy : Nat
  min_frag_len : Nat
  max_frag_len : Nat
  pe_overlap : Bool

/-- The fields of the pipeline state read or written by the streams. -/
structure PipelineState where
  idx_queue : Nat → Nat
  opposite_queue : Nat → Nat
  hits : Nat → Hit
  hits_queue_size : Nat
  opposite_queue_size : Nat
  reads_get_range : Nat → uint2
  reads_o_get_range : Nat → uint2
  reads_max_read_len : Nat
  best_alignments : Nat → Alignment
  best_alignments_o : Nat → Alignment
  best_stride : Nat
  perfect_score : Nat → Int
  min_score : Nat → Int
  anchor : Nat
  score_limit : Int
  genome_length : Nat

/-- Code that `score_inl.h` uses and does not define. -/
structure Env where
  /-- The function `compute_target_score` of `alignment_utils.h`. -/
  compute_target_score : BestPairedAlignments → Int → Int → Int
  /-- The function `frame_opposite_mate`: policy, anchor, anchor-forward flag to
  the pair `(o_left, o_fw)`. -/
  frame_opposite_mate : Nat → Nat → Bool → Bool × Bool
  /-- The function `aln::max_text_gaps` at the aligner of the stream. -/
  max_text_gaps : Int → Nat → Int
  /-- The constant `scheme_type::worst_score`. -/
  worst_score : Int
  /-- The value built by `aln::BestSink<int32>()`. -/
  new_sink : BestSink

/-- The operations of the sink of the Opposite stream that the stream calls. -/
structure SinkOps (σ : Type) where
  invalidate : σ → σ
  set_min_score : σ → Int → σ

/-- The `io::BestPairedAlignments` a paired stream builds for `read_id` from the two
best-alignment tables (first and second entry of each). -/
def PipelineState.best_paired (P : PipelineState) (read_id : Nat) : BestPairedAlignments :=
  { m_a1 := P.best_alignments read_id
    m_a2 := P.best_alignments (uadd read_id P.best_stride)
    m_o1 := P.best_alignments_o read_id
    m_o2 := P.best_alignments_o (uadd read_id P.best_stride) }

/-- Length of a read range, `range.y - range.x` in `uint32`. -/
def range_len (r : uint2) : Nat := usub r.y r.x

/-- The test of the paired streams for a location already recorded: `mate`, strand
and position equal those of one of the four entries of `best`. -/
def already_visited (best : BestPairedAlignments) (mate rc g_pos : Nat) : Bool :=
  (mate == best.m_a1.m_mate && (rc == best.m_a1.m_rc && g_pos == best.m_a1.m_align)) ||
  (mate == best.m_o1.m_mate && (rc == best.m_o1.m_rc && g_pos == best.m_o1.m_align)) ||
  (mate == best.m_a2.m_mate && (rc == best.m_a2.m_rc && g_pos == best.m_a2.m_align)) ||
  (mate == best.m_o2.m_mate && (rc == best.m_o2.m_rc && g_pos == best.m_o2.m_align))

/-- The local `target_pair_score` of the two paired `init_context` methods:
`nvbio::min( compute_target_score( best, a_worst_score, o_worst_score ) + 1,
a_optimal_score + o_optimal_score )`, in `int32` arithmetic. -/
def target_pair_score (E : Env) (best : BestPairedAlignments)
    (a_worst_score o_worst_score a_optimal_score o_optimal_score : Int) : Int :=
  min (wrap32 (E.compute_target_score best a_worst_score o_worst_score + 1))
      (wrap32 (a_optimal_score + o_optimal_score))

/-! ## BestScoreStream

Each `init_context` below computes the locals of the source method in source order
and builds the context it leaves behind at each return point; a field that the
method has not assigned by then keeps the value of the prior context. -/

/-- Method `BestScoreStream::init_context`. -/
def BestScoreStream.init_context (E : Env) (m_band_len : Nat) (P : PipelineState)
    (i : Nat) (_context : AlignmentContext BestSink) : Bool × AlignmentContext BestSink :=
  let idx := P.idx_queue i
  let hit := P.hits idx
  let read_id := hit.read_id
  let read_range := P.reads_get_range read_id
  let g_pos := hit.loc
  let read_len := range_len read_range
  let genome_begin := if g_pos > m_band_len / 2 then usub g_pos (m_band_len / 2) else 0
  let genome_end := min (uadd (uadd genome_begin m_band_len) read_len) P.genome_length
  let second_best := P.best_alignments (uadd read_id P.best_stride)
  (true,
    { idx := idx
      mate := 0
      read_rc := hit.seed_rc
      read_id := read_id
      read_range := read_range
      genome_begin := genome_begin
      genome_end := genome_end
      min_score := max second_best.score P.score_limit
      sink := E.new_sink })

/-- Method `BestScoreStream::output`. -/
def BestScoreStream.output (E : Env) (P : PipelineState) (_i : Nat)
    (context : AlignmentContext BestSink) : PipelineState :=
  let hit := P.hits context.idx
  let sink := context.sink
  let hit : Hit :=
    { hit with
      score := max sink.score E.worst_score
      sink := uadd context.genome_begin sink.sink.x }
  { P with hits := Function.update P.hits context.idx hit }

/-! ## BestAnchorScoreStream -/

/-- Method `BestAnchorScoreStream::init_context`.  The skip flag reads
`context->min_score` before the method assigns it, that is, the value of the
prior context. -/
def BestAnchorScoreStream.init_context (E : Env) (m_band_len : Nat) (P : PipelineState)
    (i : Nat) (context : AlignmentContext BestSink) : Bool × AlignmentContext BestSink :=
  let idx := P.idx_queue i
  let hit := P.hits idx
  let read_rc := hit.seed_rc
  let read_id := hit.read_id
  let best := P.best_paired read_id
  let o_read_range := P.reads_o_get_range read_id
  let o_read_len := range_len o_read_range
  let o_optimal_score := P.perfect_score o_read_len
  let o_worst_score := P.min_score o_read_len
  let a_read_range := P.reads_get_range read_id
  let a_read_len := range_len a_read_range
  let a_optimal_score := P.perfect_score a_read_len
  let a_worst_score := P.min_score a_read_len
  let target_pair_score :=
    target_pair_score E best a_worst_score o_worst_score a_optimal_score o_optimal_score
  let target_mate_score := wrap32 (target_pair_score - o_optimal_score)
  let target_mate_score := max target_mate_score a_worst_score
  let g_pos := hit.loc
  let genome_begin := if g_pos > m_band_len / 2 then usub g_pos (m_band_len / 2) else 0
  let genome_end := min (uadd (uadd genome_begin m_band_len) a_read_len) P.genome_length
  let mate := P.anchor
  let skip := already_visited best mate read_rc g_pos ||
    decide (context.min_score > a_optimal_score)
  (!skip,
    { idx := idx
      mate := 0
      read_rc := read_rc
      read_id := read_id
      read_range := a_read_range
      genome_begin := genome_begin
      genome_end := genome_end
      min_score := if skip then int32_max else max target_mate_score P.score_limit
      sink := E.new_sink })

/-- Method `BestAnchorScoreStream::output`. -/
def BestAnchorScoreStream.output (E : Env) (P : PipelineState) (_i : Nat)
    (context : AlignmentContext BestSink) : PipelineState :=
  let hit := P.hits context.idx
  let sink := context.sink
  let hit : Hit :=
    { hit with
      score := if sink.score ≥ context.min_score then sink.score else E.worst_score
      sink := uadd context.genome_begin sink.sink.x }
  { P with hits := Function.update P.hits context.idx hit }

/-! ## BestOppositeScoreStream -/

/-- The window `(genome_begin, genome_end)` that `BestOppositeScoreStream::init_context`
frames in its `if (o_left) ... else ...` statement (source lines 422 to 435), before
the clamp of `genome_end` to the genome length. -/
def opposite_window (m_params : ParamsPOD) (o_left : Bool) (g_pos a_len o_gapped_len : Nat) :
    Nat × Nat :=
  if o_left then
    let max_end :=
      if uadd (uadd g_pos a_len) o_gapped_len > m_params.min_frag_len then
        usub (uadd (uadd g_pos a_len) o_gapped_len) m_params.min_frag_len
      else 0
    let genome_begin :=
      if uadd g_pos a_len > m_params.max_frag_len then
        usub (uadd g_pos a_len) m_params.max_frag_len
      else 0
    let genome_end := if m_params.pe_overlap then uadd g_pos a_len else g_pos
    (genome_begin, min genome_end max_end)
  else
    let min_begin :=
      if uadd g_pos m_params.min_frag_len > o_gapped_len then
        usub (uadd g_pos m_params.min_frag_len) o_gapped_len
      else 0
    let genome_end := uadd g_pos m_params.max_frag_len
    let genome_begin := if m_params.pe_overlap then g_pos else uadd g_pos a_len
    (max genome_begin min_begin, genome_end)

/-- Method `BestOppositeScoreStream::init_context`, over the sink type `σ` of the
context; `DP_REPORT_MULTIPLE` is the value of the preprocessor flag of that name. -/
def BestOppositeScoreStream.init_context {σ : Type} (E : Env) (S : SinkOps σ)
    (DP_REPORT_MULTIPLE : Bool) (P : PipelineState) (m_params : ParamsPOD)
    (i : Nat) (context : AlignmentContext σ) : Bool × AlignmentContext σ :=
  let idx := P.idx_queue (P.opposite_queue i)
  let sink := S.invalidate context.sink
  let hit := P.hits idx
  let read_rc := hit.seed_rc
  let read_id := hit.read_id
  let g_pos := hit.loc
  let a_read_range := P.reads_get_range read_id
  let a_len := range_len a_read_range
  let a_optimal_score := P.perfect_score a_len
  let a_worst_score := P.min_score a_len
  let o_read_range := P.reads_o_get_range read_id
  let o_len := range_len o_read_range
  let o_optimal_score := P.perfect_score o_len
  let o_worst_score := P.min_score o_len
  let anchor_score := hit.score
  let best := P.best_paired read_id
  let target_pair_score :=
    target_pair_score E best a_worst_score o_worst_score a_optimal_score o_optimal_score
  let target_mate_score := wrap32 (target_pair_score - anchor_score)
  let target_mate_score := max target_mate_score o_worst_score
  let min_score := max target_mate_score P.score_limit
  let sink := if DP_REPORT_MULTIPLE then S.set_min_score sink min_score else sink
  if min_score > o_optimal_score then
    (false, { context with idx := idx, min_score := min_score, sink := sink })
  else
    let framed := E.frame_opposite_mate m_params.pe_policy P.anchor (read_rc == 0)
    let o_left := framed.1
    let o_fw := framed.2
    let context_read_rc := if o_fw then 0 else 1
    let max_ref_gaps := E.max_text_gaps min_score o_len
    let o_gapped_len := uadd o_len (int_to_u32 max_ref_gaps)
    let window := opposite_window m_params o_left g_pos a_len o_gapped_len
    let genome_begin := window.1
    let genome_end := min window.2 P.genome_length
    if genome_begin ≥ P.genome_length then
      (false,
        { idx := idx
          mate := 1
          read_rc := context_read_rc
          read_id := read_id
          read_range := o_read_range
          genome_begin := genome_begin
          genome_end := genome_end
          min_score := min_score
          sink := sink })
    else
      let genome_end := min genome_end P.genome_length
      let mate := if P.anchor != 0 then 0 else 1
      let skip := already_visited best mate context_read_rc g_pos ||
        decide (genome_begin = genome_end)
      (!skip,
        { idx := idx
          mate := 1
          read_rc := context_read_rc
          read_id := read_id
          read_range := o_read_range
          genome_begin := genome_begin
          genome_end := genome_end
          min_score := min_score
          sink := sink })

/-- Method `BestOppositeScoreStream::output`, branch `#if DP_REPORT_MULTIPLE`; `best2`
is the method `BestColumnSink::best2`, from a sink and a minimum distance to the
two indices it selects. -/
def BestOppositeScoreStream.output_multiple (E : Env)
    (best2 : BestColumnSink → Nat → Nat × Nat) (P : PipelineState) (_i : Nat)
    (context : AlignmentContext BestColumnSink) : PipelineState :=
  let hit := P.hits context.idx
  let sink := context.sink
  let best_idx := best2 sink (range_len context.read_range / 2)
  let best_idx1 := best_idx.1
  let best_idx2 := best_idx.2
  let genome_sink :=
    if (sink.sinks best_idx1).x ≠ 4294967295 then (sink.sinks best_idx1).x else 0
  let genome_sink2 :=
    if (sink.sinks best_idx2).x ≠ 4294967295 then (sink.sinks best_idx2).x else 0
  let hit : Hit :=
    { hit with
      opposite_score :=
        if sink.scores best_idx1 ≥ context.min_score then sink.scores best_idx1
        else E.worst_score
      opposite_score2 :=
        if sink.scores best_idx2 ≥ context.min_score then sink.scores best_idx2
        else E.worst_score
      opposite_loc := context.genome_begin
      opposite_sink := uadd context.genome_begin genome_sink
      opposite_sink2 := uadd context.genome_begin genome_sink2 }
  { P with hits := Function.update P.hits context.idx hit }

/-- Method `BestOppositeScoreStream::output`, branch `#else` (one sink only). -/
def BestOppositeScoreStream.output_single (E : Env) (P : PipelineState) (_i : Nat)
    (context : AlignmentContext BestSink) : PipelineState :=
  let hit := P.hits context.idx
  let sink := context.sink
  let genome_sink := if sink.sink.x ≠ 4294967295 then sink.sink.x else 0
  let genome_sink2 := 0
  let hit : Hit :=
    { hit with
      opposite_score :=
        if sink.score ≥ context.min_score then sink.score else E.worst_score
      opposite_score2 := E.worst_score
      opposite_loc := context.genome_begin
      opposite_sink := uadd context.genome_begin genome_sink
      opposite_sink2 := uadd context.genome_begin genome_sink2 }
  { P with hits := Function.update P.hits context.idx hit }

/-! ## Values the paired streams compute for one item -/

/-- The threshold `context->min_score` assigned by
`BestOppositeScoreStream::init_context` (source lines 354 to 388), as a function of
the pipeline state and the item. -/
def opposite_threshold (E : Env) (P : PipelineState) (i : Nat) : Int :=
  let hit := P.hits (P.idx_queue (P.opposite_queue i))
  let a_len := range_len (P.reads_get_range hit.read_id)
  let o_len := range_len (P.reads_o_get_range hit.read_id)
  max (max (wrap32 (min
    (wrap32 (E.compute_target_score (P.best_paired hit.read_id)
      (P.min_score a_len) (P.min_score o_len) + 1))
    (wrap32 (P.perfect_score a_len + P.perfect_score o_len)) - hit.score))
    (P.min_score o_len)) P.score_limit

/-- The strand `context->read_rc` that `BestOppositeScoreStream::init_context` assigns
after framing: `!o_fw` as a `uint32`. -/
def opposite_strand (E : Env) (P : PipelineState) (m_params : ParamsPOD) (i : Nat) : Nat :=
  let hit := P.hits (P.idx_queue (P.opposite_queue i))
  if (E.frame_opposite_mate m_params.pe_policy P.anchor (hit.seed_rc == 0)).2 then 0 else 1

/-- The window `(genome_begin, genome_end)` that `BestOppositeScoreStream::init_context`
computes for item `i` when the threshold check passes (source lines 401 to 443). -/
def opposite_frame (E : Env) (P : PipelineState) (m_params : ParamsPOD) (i : Nat) :
    Nat × Nat :=
  let hit := P.hits (P.idx_queue (P.opposite_queue i))
  let a_len := range_len (P.reads_get_range hit.read_id)
  let o_len := range_len (P.reads_o_get_range hit.read_id)
  let o_left := (E.frame_opposite_mate m_params.pe_policy P.anchor (hit.seed_rc == 0)).1
  let o_gapped_len := uadd o_len (int_to_u32 (E.max_text_gaps (opposite_threshold E P i) o_len))
  let window := opposite_window m_params o_left hit.loc a_len o_gapped_len
  (window.1, min window.2 P.genome_length)

/-- The mate index the Opposite stream uses in its dedup test:
`pipeline.anchor ? 0u : 1u`. -/
def opposite_mate (P : PipelineState) : Nat := if P.anchor != 0 then 0 else 1

/-- The context of an accepted item of the Best stream after the DP step has left
`sink` in it. -/
def BestScoreStream.scored_context (E : Env) (m_band_len : Nat) (P : PipelineState)
    (i : Nat) (context : AlignmentContext BestSink) (sink : BestSink) :
    AlignmentContext BestSink :=
  { (BestScoreStream.init_context E m_band_len P i context).2 with sink := sink }

/-- The context of an item of the Anchor stream after `init_context` and after the
DP step has left `sink` in it. -/
def BestAnchorScoreStream.scored_context (E : Env) (m_band_len : Nat) (P : PipelineState)
    (i : Nat) (context : AlignmentContext BestSink) (sink : BestSink) :
    AlignmentContext BestSink :=
  { (BestAnchorScoreStream.init_context E m_band_len P i context).2 with sink := sink }

/-- The context of an item of the Opposite stream (build without
`DP_REPORT_MULTIPLE`) after `init_context` and after the DP step has left `sink`. -/
def BestOppositeScoreStream.scored_context (E : Env) (S : SinkOps BestSink)
    (P : PipelineState) (m_params : ParamsPOD) (i : Nat)
    (context : AlignmentContext BestSink) (sink : BestSink) : AlignmentContext BestSink :=
  { (BestOppositeScoreStream.init_context E S false P m_params i context).2 with sink := sink }

/-! ## Concrete pipeline states used to evaluate the streams -/

/-- An alignment record that matches no hit of the examples (mate index 2). -/
def no_alignment : Alignment :=
  { m_align := 4294967295, m_ed := 0, score := -2147483648, m_rc := 0, m_mate := 2 }

/-- A hit of read 0 on the forward strand at location `loc`, anchor score `score`. -/
def hit_at (loc : Nat) (score : Int) : Hit :=
  { read_id := 0, seed_rc := 0, loc := loc, score := score, sink := 0,
    opposite_loc := 0, opposite_score := 0, opposite_sink := 0,
    opposite_score2 := 0, opposite_sink2 := 0 }

/-- An environment: the pair floor is the sum of the two worst scores, the opposite
mate lies to the right on the other strand, and no reference gap is allowed. -/
def env0 : Env :=
  { compute_target_score := fun _ a o => a + o
    frame_opposite_mate := fun _ _ a_fw => (false, !a_fw)
    max_text_gaps := fun _ _ => 0
    worst_score := -2147483648
    new_sink := { score := -2147483648, sink := { x := 4294967295, y := 4294967295 } } }

/-- A context as a lane may hold it before `init_context`: all fields zero. -/
def ctx0 : AlignmentContext BestSink :=
  { idx := 0, mate := 0, read_rc := 0, read_id := 0, read_range := { x := 0, y := 0 },
    genome_begin := 0, genome_end := 0, min_score := 0,
    sink := { score := 0, sink := { x := 0, y := 0 } } }

/-- A pipeline state with one hit `h` of a pair of 50-base reads on a genome of
`10000` bases, end-to-end scoring (perfect score 0, worst score -30), no recorded
alignment, and global score floor `score_limit`. -/
def pipeline0 (h : Hit) (score_limit : Int) : PipelineState :=
  { idx_queue := fun i => i
    opposite_queue := fun i => i
    hits := fun _ => h
    hits_queue_size := 1
    opposite_queue_size := 1
    reads_get_range := fun _ => { x := 0, y := 50 }
    reads_o_get_range := fun _ => { x := 0, y := 50 }
    reads_max_read_len := 50
    best_alignments := fun _ => no_alignment
    best_alignments_o := fun _ => no_alignment
    best_stride := 1
    perfect_score := fun _ => 0
    min_score := fun _ => -30
    anchor := 0
    score_limit := score_limit
    genome_length := 10000 }

/-- The sink operations of `aln::BestSink<int32>` as used in the examples. -/
def best_sink_ops : SinkOps BestSink :=
  { invalidate := fun _ => env0.new_sink
    set_min_score := fun s _ => s }

/-- Parameters of the examples: fragments of at most `max_frag` bases, no minimum. -/
def params0 (max_frag : Nat) (overlap : Bool) : ParamsPOD :=
  { pe_policy := 0, min_frag_len := 0, max_frag_len := max_frag, pe_overlap := overlap }

/-- A sink with found score `score` ending at text offset `x`. -/
def sink_of (score : Int) (x : Nat) : BestSink :=
  { score := score, sink := { x := x, y := 50 } }

/-- A hit of read 0 on the reverse strand (`seed.rc = 1`) at location `loc`. -/
def rc_hit_at (loc : Nat) (score : Int) : Hit :=
  { hit_at loc score with seed_rc := 1 }

/-- An environment that frames the opposite mate to the left of the anchor, on the
other strand. -/
def env_left : Env :=
  { env0 with frame_opposite_mate := fun _ _ a_fw => (true, !a_fw) }

/-- The recorded entry of the example of the dedup law: mate 1, strand 0, location
5000. -/
def recorded_entry : Alignment :=
  { m_align := 5000, m_ed := 0, score := -10, m_rc := 0, m_mate := 1 }

/-- The pipeline state `pipeline0 h score_limit` with `recorded_entry` as the best
alignment of the opposite mate of read 0. -/
def pipeline_recorded (h : Hit) (score_limit : Int) : PipelineState :=
  { pipeline0 h score_limit with
    best_alignments_o := fun k => if k = 0 then recorded_entry else no_alignment }

/-! ## AllScoreStream -/

/-- The fields of `AllMappingPipelineState` read or written by the All stream; the
ring buffer is the pair of arrays `buffer_read_info` and `buffer_alignments`. -/
structure AllMappingPipelineState where
  idx_queue : Nat → Nat
  hits : Nat → Hit
  hits_queue_size : Nat
  reads_get_range : Nat → uint2
  reads_max_sequence_len : Nat
  min_score : Nat → Int
  genome_length : Nat
  buffer_read_info : Nat → Nat
  buffer_alignments : Nat → Alignment

/-- The record built by `io::Alignment( pos, ed, score, rc )`; the mate index is left at
its default 0. -/
def Alignment.make (pos ed : Nat) (score : Int) (rc : Nat) : Alignment :=
  { m_align := pos, m_ed := ed, score := score, m_rc := rc, m_mate := 0 }

/-- Method `AllScoreStream::init_context`. -/
def AllScoreStream.init_context (E : Env) (m_band_len : Nat) (P : AllMappingPipelineState)
    (i : Nat) (_context : AlignmentContext BestSink) : Bool × AlignmentContext BestSink :=
  let idx := P.idx_queue i
  let hit := P.hits idx
  let read_id := hit.read_id
  let read_range := P.reads_get_range read_id
  let g_pos := hit.loc
  let read_len := range_len read_range
  let genome_begin := if g_pos > m_band_len / 2 then usub g_pos (m_band_len / 2) else 0
  let genome_end := min (uadd (uadd genome_begin m_band_len) read_len) P.genome_length
  (true,
    { idx := idx
      mate := 0
      read_rc := hit.seed_rc
      read_id := read_id
      read_range := read_range
      genome_begin := genome_begin
      genome_end := genome_end
      min_score := P.min_score read_len
      sink := E.new_sink })

/-- The index `(m_buffer_offset + slot) % m_buffer_size` at which
`AllScoreStream::output` writes, in `uint32` arithmetic. -/
def AllScoreStream.buffer_index (m_buffer_offset m_buffer_size slot : Nat) : Nat :=
  uadd m_buffer_offset slot % m_buffer_size

/-- Method `AllScoreStream::output`; the counter `*m_counter` is passed in and returned
with the pipeline state. -/
def AllScoreStream.output (m_buffer_offset m_buffer_size : Nat)
    (P : AllMappingPipelineState) (m_counter : Nat) (_i : Nat)
    (context : AlignmentContext BestSink) : AllMappingPipelineState × Nat :=
  let sink := context.sink
  if sink.score ≥ context.min_score then
    let hit := P.hits context.idx
    let slot := m_counter
    let m_counter := uadd m_counter 1
    let pos := AllScoreStream.buffer_index m_buffer_offset m_buffer_size slot
    ({ P with
        buffer_read_info := Function.update P.buffer_read_info pos hit.read_id
        buffer_alignments := Function.update P.buffer_alignments pos
          (Alignment.make hit.loc 0 sink.score hit.seed_rc) },
      m_counter)
  else (P, m_counter)

/-- The state after `AllScoreStream::output` has been applied, from counter 0, to the
items `item 0`, ..., `item (k - 1)` one after the other. -/
def AllScoreStream.output_seq (m_buffer_offset m_buffer_size : Nat)
    (P : AllMappingPipelineState) (item : Nat → AlignmentContext BestSink) :
    Nat → AllMappingPipelineState × Nat
  | 0 => (P, 0)
  | k + 1 =>
    AllScoreStream.output m_buffer_offset m_buffer_size
      (AllScoreStream.output_seq m_buffer_offset m_buffer_size P item k).1
      (AllScoreStream.output_seq m_buffer_offset m_buffer_size P item k).2 k (item k)

/-- The `(read id, alignment record)` pair that `AllScoreStream::output` appends for
an item with context `context`. -/
def AllScoreStream.entry (P : AllMappingPipelineState)
    (context : AlignmentContext BestSink) : Nat × Alignment :=
  ((P.hits context.idx).read_id,
    Alignment.make (P.hits context.idx).loc 0 context.sink.score (P.hits context.idx).seed_rc)

/-- The bucket `static_band_len` that `banded_score_best`, `banded_anchor_score_best`
and `banded_score_all` pass to the stream. -/
def static_band_len (band_len : Nat) : Nat :=
  if band_len < 4 then 3
  else if band_len < 8 then 7
  else if band_len < 16 then 15
  else 31

/-- An All-stream pipeline state with hit `k` of read `k` at location `100 + k`, an
empty ring buffer, and worst allowed score -30. -/
def all_pipeline0 : AllMappingPipelineState :=
  { idx_queue := fun i => i
    hits := fun k => { hit_at (100 + k) 0 with read_id := k }
    hits_queue_size := 15
    reads_get_range := fun _ => { x := 0, y := 50 }
    reads_max_sequence_len := 50
    min_score := fun _ => -30
    genome_length := 10000
    buffer_read_info := fun _ => 4294967295
    buffer_alignments := fun _ => no_alignment }

/-- The context of item `j` of `all_pipeline0` after a DP step that found score
`-j`, above the threshold -30 for the items used. -/
def all_item (j : Nat) : AlignmentContext BestSink :=
  { ctx0 with idx := j, read_id := j, min_score := -30, sink := sink_of (-(j : Int)) 3 }

/-! ## The round of the All stream -/

/-- The external DP step as the streams see it: `dp is_local BAND_LEN i context` is the
sink the banded kernel of width `BAND_LEN` (local or end-to-end aligner) leaves for
item `i` initialised to `context`, and `prior i` is the content of the context object
of item `i` before `init_context`. -/
structure Executor where
  dp : Bool → Nat → Nat → AlignmentContext BestSink → BestSink
  prior : Nat → AlignmentContext BestSink

/-- Modelled from the spec: the batched executor `BatchedBandedAlignmentScore::enact`
of the alignment library, which is not part of this header.  For every item of the
stream it calls `init_context`, on accept runs the DP step, and then calls `output`
once; the items are taken in index order, the atomic counter making any interleaving
equal to some sequential order.  The result is the state after the first `n` items. -/
def AllScoreStream.enact (E : Env) (X : Executor) (is_local : Bool) (BAND_LEN : Nat)
    (m_band_len m_buffer_offset m_buffer_size : Nat) (P : AllMappingPipelineState)
    (m_counter : Nat) : Nat → AllMappingPipelineState × Nat
  | 0 => (P, m_counter)
  | n + 1 =>
    let s := AllScoreStream.enact E X is_local BAND_LEN m_band_len m_buffer_offset
      m_buffer_size P m_counter n
    let r := AllScoreStream.init_context E m_band_len s.1 n (X.prior n)
    if r.1 then
      AllScoreStream.output m_buffer_offset m_buffer_size s.1 s.2 n
        { r.2 with sink := X.dp is_local BAND_LEN n r.2 }
    else s

/-- Function `banded_score_all`: the stream gets `static_band_len`, and the if-chain
picks the kernel width; the stream size is `hits_queue_size`. -/
def banded_score_all (E : Env) (X : Executor) (is_local : Bool) (band_len : Nat)
    (pipeline : AllMappingPipelineState) (buffer_offset buffer_size counter : Nat) :
    AllMappingPipelineState × Nat :=
  let static_band_len := static_band_len band_len
  if band_len < 4 then
    AllScoreStream.enact E X is_local 3 static_band_len buffer_offset buffer_size
      pipeline counter pipeline.hits_queue_size
  else if band_len < 8 then
    AllScoreStream.enact E X is_local 7 static_band_len buffer_offset buffer_size
      pipeline counter pipeline.hits_queue_size
  else if band_len < 16 then
    AllScoreStream.enact E X is_local 15 static_band_len buffer_offset buffer_size
      pipeline counter pipeline.hits_queue_size
  else
    AllScoreStream.enact E X is_local 31 static_band_len buffer_offset buffer_size
      pipeline counter pipeline.hits_queue_size

/-- Function `score_all_t`: the counter starts at 0 and its final value is returned;
`local_alignment` is the test `params.alignment_type == LocalAlignment`.  The second
component is the pipeline state the round leaves. -/
def score_all_t (E : Env) (X : Executor) (band_len : Nat)
    (pipeline : AllMappingPipelineState) (local_alignment : Bool)
    (ring_offset ring_size : Nat) : Nat × AllMappingPipelineState :=
  let counter := 0
  let r :=
    if local_alignment then
      banded_score_all E X true band_len pipeline ring_offset ring_size counter
    else
      banded_score_all E X false band_len pipeline ring_offset ring_size counter
  (r.2, r.1)

/-- The found score of item `i` of an All-stream round: the score of the sink the DP
step leaves in the context that `init_context` built. -/
def AllScoreStream.found_score (E : Env) (X : Executor) (is_local : Bool) (BAND_LEN : Nat)
    (m_band_len : Nat) (P : AllMappingPipelineState) (i : Nat) : Int :=
  (X.dp is_local BAND_LEN i
    (AllScoreStream.init_context E m_band_len P i (X.prior i)).2).score

/-- Two All-stream pipeline states agree on everything the stream reads: all fields
except the two ring-buffer arrays. -/
def AllMappingPipelineState.same_inputs (Q P : AllMappingPipelineState) : Prop :=
  Q.idx_queue = P.idx_queue ∧ Q.hits = P.hits ∧ Q.hits_queue_size = P.hits_queue_size ∧
  Q.reads_get_range = P.reads_get_range ∧
  Q.reads_max_sequence_len = P.reads_max_sequence_len ∧
  Q.min_score = P.min_score ∧ Q.genome_length = P.genome_length

/-- The number of items `i < n` of an All-stream round whose found score is at least
`scoring_scheme.min_score(read_len)`. -/
def AllScoreStream.accepted_count (E : Env) (X : Executor) (is_local : Bool)
    (BAND_LEN m_band_len : Nat) (P : AllMappingPipelineState) (n : Nat) : Nat :=
  ((List.range n).filter (fun i =>
    decide (AllScoreStream.found_score E X is_local BAND_LEN m_band_len P i ≥
      P.min_score (range_len (P.reads_get_range (P.hits (P.idx_queue i)).read_id))))).length

/-! ## Rounds of the Best, Anchor and Opposite streams -/

/-- The pipeline state `P` with the hit at position `k` replaced by `h`. -/
def PipelineState.with_hit (P : PipelineState) (k : Nat) (h : Hit) : PipelineState :=
  { P with hits := Function.update P.hits k h }

/-- Modelled from the spec: the cycle the batched executor (not part of this header)
runs for one item `i` of a stream: `init_context` on the context object of the item,
and on accept the DP step, which leaves its sink in the context, followed by `output`;
on skip nothing is written. -/
def stream_item {σ : Type}
    (init_context : PipelineState → Nat → AlignmentContext σ → Bool × AlignmentContext σ)
    (output : PipelineState → Nat → AlignmentContext σ → PipelineState)
    (dp : Nat → AlignmentContext σ → σ) (prior : Nat → AlignmentContext σ)
    (P : PipelineState) (i : Nat) : PipelineState :=
  let r := init_context P i (prior i)
  if r.1 then output P i { r.2 with sink := dp i r.2 } else P

/-- One item of a round of the Best stream. -/
def BestScoreStream.item (E : Env) (m_band_len : Nat)
    (dp : Nat → AlignmentContext BestSink → BestSink)
    (prior : Nat → AlignmentContext BestSink) (P : PipelineState) (i : Nat) : PipelineState :=
  stream_item (BestScoreStream.init_context E m_band_len) (BestScoreStream.output E)
    dp prior P i

/-- One item of a round of the Anchor stream. -/
def BestAnchorScoreStream.item (E : Env) (m_band_len : Nat)
    (dp : Nat → AlignmentContext BestSink → BestSink)
    (prior : Nat → AlignmentContext BestSink) (P : PipelineState) (i : Nat) : PipelineState :=
  stream_item (BestAnchorScoreStream.init_context E m_band_len)
    (BestAnchorScoreStream.output E) dp prior P i

/-- One item of a round of the Opposite stream, build without `DP_REPORT_MULTIPLE`. -/
def BestOppositeScoreStream.item_single (E : Env) (S : SinkOps BestSink)
    (m_params : ParamsPOD) (dp : Nat → AlignmentContext BestSink → BestSink)
    (prior : Nat → AlignmentContext BestSink) (P : PipelineState) (i : Nat) : PipelineState :=
  stream_item (fun Q => BestOppositeScoreStream.init_context E S false Q m_params)
    (BestOppositeScoreStream.output_single E) dp prior P i

/-- One item of a round of the Opposite stream, build with `DP_REPORT_MULTIPLE`. -/
def BestOppositeScoreStream.item_multiple (E : Env) (S : SinkOps BestColumnSink)
    (best2 : BestColumnSink → Nat → Nat × Nat) (m_params : ParamsPOD)
    (dp : Nat → AlignmentContext BestColumnSink → BestColumnSink)
    (prior : Nat → AlignmentContext BestColumnSink) (P : PipelineState) (i : Nat) :
    PipelineState :=
  stream_item (fun Q => BestOppositeScoreStream.init_context E S true Q m_params)
    (BestOppositeScoreStream.output_multiple E best2) dp prior P i

/-- A round that takes the items in the order `order`. -/
def run_items (item : PipelineState → Nat → PipelineState) (order : List Nat)
    (P : PipelineState) : PipelineState :=
  order.foldl item P

/-- A pipeline state like `pipeline0` with two hits of read 0: hit 0 at location 5000,
which the recorded best anchor alignment (mate 0, strand 0, location 5000) already
covers, and every other hit at location 100. -/
def pipeline_two (score_limit : Int) : PipelineState :=
  { pipeline0 (hit_at 100 0) score_limit with
    hits := fun k => if k = 0 then hit_at 5000 0 else hit_at 100 0
    best_alignments := fun k =>
      if k = 0 then { recorded_entry with m_mate := 0 } else no_alignment }

/-- A DP step for the examples: item `i` gets found score `-5 - i`. -/
def dp0 (i : Nat) (_context : AlignmentContext BestSink) : BestSink :=
  sink_of (-5 - (i : Int)) 3

/-- A DP step for the examples: item `i` gets found score `-10` when `i` is even and
`-40` when it is odd. -/
def executor0 : Executor :=
  { dp := fun _ _ i _ => sink_of (if i % 2 = 0 then -10 else -40) 3
    prior := fun _ => ctx0 }

/-! ## Declared bounds of the streams -/

/-- Method `BestScoreStream::max_text_length`. -/
def BestScoreStream.max_text_length (m_band_len : Nat) (P : PipelineState) : Nat :=
  uadd P.reads_max_read_len m_band_len

/-- Method `BestAnchorScoreStream::max_text_length`. -/
def BestAnchorScoreStream.max_text_length (m_band_len : Nat) (P : PipelineState) : Nat :=
  uadd P.reads_max_read_len m_band_len

/-- Method `BestOppositeScoreStream::max_text_length`. -/
def BestOppositeScoreStream.max_text_length (m_params : ParamsPOD) : Nat :=
  m_params.max_frag_len

/-- Method `AllScoreStream::max_text_length`. -/
def AllScoreStream.max_text_length (m_band_len : Nat) (P : AllMappingPipelineState) : Nat :=
  uadd P.reads_max_sequence_len m_band_len

/-! ## The dispatchers of the banded streams -/

/-- Modelled from the spec: the batched executor `BatchedBandedAlignmentScore::enact`
(not part of this header) on a Best stream of band `m_band_len`, instantiated with
kernel width `BAND_LEN`: one cycle per item of the hit queue. -/
def BestScoreStream.enact (E : Env) (X : Executor) (is_local : Bool) (BAND_LEN : Nat)
    (m_band_len : Nat) (P : PipelineState) : PipelineState :=
  run_items (BestScoreStream.item E m_band_len (X.dp is_local BAND_LEN) X.prior)
    (List.range P.hits_queue_size) P

/-- Modelled from the spec: the batched executor `BatchedBandedAlignmentScore::enact`
(not part of this header) on an Anchor stream of band `m_band_len`, instantiated with
kernel width `BAND_LEN`: one cycle per item of the hit queue. -/
def BestAnchorScoreStream.enact (E : Env) (X : Executor) (is_local : Bool) (BAND_LEN : Nat)
    (m_band_len : Nat) (P : PipelineState) : PipelineState :=
  run_items (BestAnchorScoreStream.item E m_band_len (X.dp is_local BAND_LEN) X.prior)
    (List.range P.hits_queue_size) P

/-- Function `banded_score_best`: the stream gets `static_band_len`, and the if-chain
picks the kernel width. -/
def banded_score_best (E : Env) (X : Executor) (is_local : Bool) (band_len : Nat)
    (pipeline : PipelineState) : PipelineState :=
  let static_band_len := static_band_len band_len
  if band_len < 4 then
    BestScoreStream.enact E X is_local 3 static_band_len pipeline
  else if band_len < 8 then
    BestScoreStream.enact E X is_local 7 static_band_len pipeline
  else if band_len < 16 then
    BestScoreStream.enact E X is_local 15 static_band_len pipeline
  else
    BestScoreStream.enact E X is_local 31 static_band_len pipeline

/-- Function `banded_anchor_score_best`: the stream gets `static_band_len`, and the
if-chain picks the kernel width. -/
def banded_anchor_score_best (E : Env) (X : Executor) (is_local : Bool) (band_len : Nat)
    (pipeline : PipelineState) : PipelineState :=
  let static_band_len := static_band_len band_len
  if band_len < 4 then
    BestAnchorScoreStream.enact E X is_local 3 static_band_len pipeline
  else if band_len < 8 then
    BestAnchorScoreStream.enact E X is_local 7 static_band_len pipeline
  else if band_len < 16 then
    BestAnchorScoreStream.enact E X is_local 15 static_band_len pipeline
  else
    BestAnchorScoreStream.enact E X is_local 31 static_band_len pipeline

/-- The code the three dispatchers `banded_score_best`, `banded_anchor_score_best` and
`banded_score_all` share, over what they do with the selected kernel: `enact BAND_LEN
m_band_len` stands for running the kernel of width `BAND_LEN` on a stream built with
band length `m_band_len`. -/
def banded_dispatch {α : Type} (enact : Nat → Nat → α) (band_len : Nat) : α :=
  let static_band_len := static_band_len band_len
  if band_len < 4 then enact 3 static_band_len
  else if band_len < 8 then enact 7 static_band_len
  else if band_len < 16 then enact 15 static_band_len
  else enact 31 static_band_len

/-- The context objects of a round in which the items are taken in the order 0, 1 on
one context object: item 0 finds `ctx0`, and item 1 finds what the Anchor
`init_context` of item 0 of `pipeline_two` left in it. -/
def prior_carried (i : Nat) : AlignmentContext BestSink :=
  if i = 1 then (BestAnchorScoreStream.init_context env0 15 (pipeline_two (-30)) 0 ctx0).2
  else ctx0

/-- The context objects of a round in which item 1 is taken first: it finds `ctx0`. -/
def prior_fresh (_i : Nat) : AlignmentContext BestSink := ctx0

/-- An environment whose `compute_target_score` returns the least `int32` value. -/
def env_least_floor : Env :=
  { env0 with compute_target_score := fun _ _ _ => -2147483648 }

/-- A pipeline state like `pipeline0` with local-mode scoring: perfect score 100 and
worst allowed score 20 for both mates. -/
def pipeline_local (h : Hit) (score_limit : Int) : PipelineState :=
  { pipeline0 h score_limit with
    perfect_score := fun _ => 100
    min_score := fun _ => 20 }

/-! ## Theorems -/

/-- C1, evaluation of the code: with global score floor 5 and perfect score 0 the
computed threshold of the anchor is 5, above the perfect score, and
`BestAnchorScoreStream::init_context` still accepts the item when the context
held `min_score = 0` before the call. -/
theorem anchor_unreachable_threshold_accepted :
    (BestAnchorScoreStream.init_context env0 15 (pipeline0 (hit_at 100 0) 5) 0 ctx0).1 = true ∧
    (BestAnchorScoreStream.init_context env0 15 (pipeline0 (hit_at 100 0) 5) 0 ctx0).2.min_score = 5 ∧
    max (max (wrap32 (min (wrap32 (env0.compute_target_score
        ((pipeline0 (hit_at 100 0) 5).best_paired 0) (-30) (-30) + 1)) (wrap32 (0 + 0)) - 0))
        (-30)) 5 = 5 ∧
    (pipeline0 (hit_at 100 0) 5).perfect_score
      (range_len ((pipeline0 (hit_at 100 0) 5).reads_get_range 0)) = 0 ∧
    (pipeline0 (hit_at 100 0) 5).min_score
      (range_len ((pipeline0 (hit_at 100 0) 5).reads_get_range 0)) = -30 := by
  decide

/-- The context field `min_score` left by the Opposite `init_context` is the threshold,
on every return path. -/
theorem opposite_min_score_eq {σ : Type} (E : Env) (S : SinkOps σ)
    (DP_REPORT_MULTIPLE : Bool) (P : PipelineState) (m_params : ParamsPOD) (i : Nat)
    (context : AlignmentContext σ) :
    (BestOppositeScoreStream.init_context E S DP_REPORT_MULTIPLE P m_params i context).2.min_score
      = opposite_threshold E P i := by
  unfold BestOppositeScoreStream.init_context opposite_threshold target_pair_score
  simp only []
  split_ifs <;> rfl

/-- The Opposite `init_context` skips when the threshold exceeds the perfect score of
the opposite mate. -/
theorem opposite_skip_of_threshold {σ : Type} (E : Env) (S : SinkOps σ)
    (DP_REPORT_MULTIPLE : Bool) (P : PipelineState) (m_params : ParamsPOD) (i : Nat)
    (context : AlignmentContext σ)
    (h : opposite_threshold E P i > P.perfect_score (range_len (P.reads_o_get_range
      (P.hits (P.idx_queue (P.opposite_queue i))).read_id))) :
    (BestOppositeScoreStream.init_context E S DP_REPORT_MULTIPLE P m_params i context).1
      = false := by
  unfold opposite_threshold at h
  unfold BestOppositeScoreStream.init_context target_pair_score
  simp only []
  rw [if_pos h]

/-- What the Opposite `init_context` returns once the threshold check has passed. -/
theorem opposite_init_of_threshold_le {σ : Type} (E : Env) (S : SinkOps σ)
    (DP_REPORT_MULTIPLE : Bool) (P : PipelineState) (m_params : ParamsPOD) (i : Nat)
    (context : AlignmentContext σ)
    (h : ¬ opposite_threshold E P i > P.perfect_score (range_len (P.reads_o_get_range
      (P.hits (P.idx_queue (P.opposite_queue i))).read_id))) :
    let r := BestOppositeScoreStream.init_context E S DP_REPORT_MULTIPLE P m_params i context
    let hit := P.hits (P.idx_queue (P.opposite_queue i))
    let frame := opposite_frame E P m_params i
    r.2.read_rc = opposite_strand E P m_params i ∧
    r.2.genome_begin = frame.1 ∧ r.2.genome_end = frame.2 ∧
    r.1 = (!(decide (frame.1 ≥ P.genome_length) ||
      (already_visited (P.best_paired hit.read_id) (opposite_mate P)
        (opposite_strand E P m_params i) hit.loc || decide (frame.1 = frame.2)))) := by
  unfold opposite_threshold at h
  unfold BestOppositeScoreStream.init_context target_pair_score opposite_frame opposite_strand
    opposite_mate opposite_threshold
  simp only []
  rw [if_neg h]
  split_ifs with h2 <;> simp [h2]

/-- Membership in the four recorded entries makes the dedup test fire. -/
theorem already_visited_of_entry (best : BestPairedAlignments) (mate rc g_pos : Nat)
    (e : Alignment) (he : e ∈ [best.m_a1, best.m_o1, best.m_a2, best.m_o2])
    (h : e.m_mate = mate ∧ e.m_rc = rc ∧ e.m_align = g_pos) :
    already_visited best mate rc g_pos = true := by
  obtain ⟨h1, h2, h3⟩ := h
  subst h1 h2 h3
  simp only [List.mem_cons, List.mem_singleton, List.not_mem_nil, or_false] at he
  unfold already_visited
  rcases he with rfl | rfl | rfl | rfl <;> simp

/-- C2: in `BestOppositeScoreStream::init_context`, when the threshold
`max(max(min(compute_target_score(best, a_worst, o_worst) + 1, a_optimal + o_optimal)
- hit.score, o_worst), score_limit)` (in `int32` arithmetic) exceeds
`perfect_score(o_len)` the method returns skip; and when it returns accept the
context holds that threshold as `min_score`, which is at most `perfect_score(o_len)`. -/
theorem opposite_unreachable_threshold_skips {σ : Type} (E : Env) (S : SinkOps σ)
    (DP_REPORT_MULTIPLE : Bool) (P : PipelineState) (m_params : ParamsPOD) (i : Nat)
    (context : AlignmentContext σ) :
    let hit := P.hits (P.idx_queue (P.opposite_queue i))
    let a_len := range_len (P.reads_get_range hit.read_id)
    let o_len := range_len (P.reads_o_get_range hit.read_id)
    let min_score :=
      max (max (wrap32 (min
        (wrap32 (E.compute_target_score (P.best_paired hit.read_id)
          (P.min_score a_len) (P.min_score o_len) + 1))
        (wrap32 (P.perfect_score a_len + P.perfect_score o_len)) - hit.score))
        (P.min_score o_len)) P.score_limit
    let r := BestOppositeScoreStream.init_context E S DP_REPORT_MULTIPLE P m_params i context
    (min_score > P.perfect_score o_len → r.1 = false) ∧
    (r.1 = true → r.2.min_score = min_score ∧ r.2.min_score ≤ P.perfect_score o_len) := by
  intro hit a_len o_len min_score r
  have hms : r.2.min_score = min_score :=
    opposite_min_score_eq E S DP_REPORT_MULTIPLE P m_params i context
  refine ⟨fun h => opposite_skip_of_threshold E S DP_REPORT_MULTIPLE P m_params i context h,
    fun hacc => ⟨hms, ?_⟩⟩
  by_contra hgt
  rw [hms] at hgt
  have hskip : r.1 = false :=
    opposite_skip_of_threshold E S DP_REPORT_MULTIPLE P m_params i context (not_le.mp hgt)
  rw [hskip] at hacc
  exact Bool.false_ne_true hacc

/-- C2 at two concrete items: with score floor 5 the threshold 5 exceeds the perfect
score 0 and the item is skipped; with score floor -30 the item is accepted with
`min_score = -30`. -/
theorem opposite_unreachable_threshold_skips_witness :
    (BestOppositeScoreStream.init_context env0 best_sink_ops false
      (pipeline0 (hit_at 100 0) 5) (params0 500 true) 0 ctx0).1 = false ∧
    ((BestOppositeScoreStream.init_context env0 best_sink_ops false
      (pipeline0 (hit_at 100 0) (-30)) (params0 500 true) 0 ctx0).2.min_score = -30 ∧
     (BestOppositeScoreStream.init_context env0 best_sink_ops false
      (pipeline0 (hit_at 100 0) (-30)) (params0 500 true) 0 ctx0).2.min_score ≤ 0) :=
  ⟨(opposite_unreachable_threshold_skips env0 best_sink_ops false
      (pipeline0 (hit_at 100 0) 5) (params0 500 true) 0 ctx0).1 (by decide),
   (opposite_unreachable_threshold_skips env0 best_sink_ops false
      (pipeline0 (hit_at 100 0) (-30)) (params0 500 true) 0 ctx0).2 (by decide)⟩

/-- C3, counterexample: with score floor 0 the Best stream accepts the item with
`min_score = 0`; when the DP step leaves the found score -5, `BestScoreStream::output`
writes `hit.score = -5`, which is below the threshold and is not the sentinel. -/
theorem best_output_keeps_score_below_threshold :
    (BestScoreStream.init_context env0 15 (pipeline0 (hit_at 100 0) 0) 0 ctx0).1 = true ∧
    (BestScoreStream.scored_context env0 15 (pipeline0 (hit_at 100 0) 0) 0 ctx0
      (sink_of (-5) 3)).min_score = 0 ∧
    ((BestScoreStream.output env0 (pipeline0 (hit_at 100 0) 0) 0
      (BestScoreStream.scored_context env0 15 (pipeline0 (hit_at 100 0) 0) 0 ctx0
        (sink_of (-5) 3))).hits 0).score = -5 ∧
    ¬ (((BestScoreStream.output env0 (pipeline0 (hit_at 100 0) 0) 0
      (BestScoreStream.scored_context env0 15 (pipeline0 (hit_at 100 0) 0) 0 ctx0
        (sink_of (-5) 3))).hits 0).score ≥
        (BestScoreStream.scored_context env0 15 (pipeline0 (hit_at 100 0) 0) 0 ctx0
          (sink_of (-5) 3)).min_score ∨
      ((BestScoreStream.output env0 (pipeline0 (hit_at 100 0) 0) 0
      (BestScoreStream.scored_context env0 15 (pipeline0 (hit_at 100 0) 0) 0 ctx0
        (sink_of (-5) 3))).hits 0).score = env0.worst_score) := by
  decide

/-- C3, amended: for every item of the Best stream (always accepted) and every sink
the DP step leaves, `BestScoreStream::output` writes
`hit.score = max(sink.score, worst_score)`; hence `hit.score >= worst_score`, and
`hit.score >= context.min_score` or `hit.score = worst_score` whenever the found score
is at least the threshold or at most the sentinel. -/
theorem best_output_score (E : Env) (m_band_len : Nat) (P : PipelineState) (i : Nat)
    (context : AlignmentContext BestSink) (sink : BestSink) :
    let c := BestScoreStream.scored_context E m_band_len P i context sink
    let hit := (BestScoreStream.output E P i c).hits c.idx
    (BestScoreStream.init_context E m_band_len P i context).1 = true ∧
    hit.score = max sink.score E.worst_score ∧
    hit.score ≥ E.worst_score ∧
    (sink.score ≥ c.min_score ∨ sink.score ≤ E.worst_score →
      hit.score ≥ c.min_score ∨ hit.score = E.worst_score) := by
  intro c hit
  have hs : hit.score = max sink.score E.worst_score := by
    simp [hit, c, BestScoreStream.output, BestScoreStream.scored_context]
  refine ⟨rfl, hs, ?_, ?_⟩
  · rw [hs]; exact le_max_right _ _
  · rintro (h | h)
    · left; rw [hs]; exact le_trans h (le_max_left _ _)
    · right; rw [hs]; exact max_eq_right h

/-- C3 amended, at a concrete item: threshold 0, found score 7, written score 7. -/
theorem best_output_score_witness :
    (sink_of 7 3).score ≥ (BestScoreStream.scored_context env0 15
      (pipeline0 (hit_at 100 0) 0) 0 ctx0 (sink_of 7 3)).min_score ∧
    (((BestScoreStream.output env0 (pipeline0 (hit_at 100 0) 0) 0
      (BestScoreStream.scored_context env0 15 (pipeline0 (hit_at 100 0) 0) 0 ctx0
        (sink_of 7 3))).hits
      (BestScoreStream.scored_context env0 15 (pipeline0 (hit_at 100 0) 0) 0 ctx0
        (sink_of 7 3)).idx).score ≥
      (BestScoreStream.scored_context env0 15 (pipeline0 (hit_at 100 0) 0) 0 ctx0
        (sink_of 7 3)).min_score ∨
     ((BestScoreStream.output env0 (pipeline0 (hit_at 100 0) 0) 0
      (BestScoreStream.scored_context env0 15 (pipeline0 (hit_at 100 0) 0) 0 ctx0
        (sink_of 7 3))).hits
      (BestScoreStream.scored_context env0 15 (pipeline0 (hit_at 100 0) 0) 0 ctx0
        (sink_of 7 3)).idx).score = env0.worst_score) :=
  ⟨by decide,
   (best_output_score env0 15 (pipeline0 (hit_at 100 0) 0) 0 ctx0 (sink_of 7 3)).2.2.2
     (Or.inl (by decide))⟩

/-- C4: `BestAnchorScoreStream::output` writes `hit.score = sink.score` when
`sink.score >= context.min_score` and the worst-score sentinel otherwise, so the
written score is at least the threshold or is the sentinel; and it writes
`hit.sink = context.genome_begin + sink.sink.x` (a `uint32` sum, the exact sum when
it does not overflow). -/
theorem anchor_output_score (E : Env) (P : PipelineState) (i : Nat)
    (context : AlignmentContext BestSink) :
    let hit := (BestAnchorScoreStream.output E P i context).hits context.idx
    (context.sink.score ≥ context.min_score → hit.score = context.sink.score) ∧
    (context.sink.score < context.min_score → hit.score = E.worst_score) ∧
    (hit.score ≥ context.min_score ∨ hit.score = E.worst_score) ∧
    hit.sink = (context.genome_begin + context.sink.sink.x) % 4294967296 ∧
    (context.genome_begin + context.sink.sink.x < 4294967296 →
      hit.sink = context.genome_begin + context.sink.sink.x) := by
  intro hit
  have hs : hit.score =
      if context.sink.score ≥ context.min_score then context.sink.score else E.worst_score := by
    simp [hit, BestAnchorScoreStream.output]
  have hk : hit.sink = (context.genome_begin + context.sink.sink.x) % 4294967296 := by
    simp [hit, BestAnchorScoreStream.output, uadd]
  refine ⟨fun h => ?_, fun h => ?_, ?_, hk, fun h => ?_⟩
  · rw [hs, if_pos h]
  · rw [hs, if_neg (not_le.mpr h)]
  · by_cases h : context.sink.score ≥ context.min_score
    · left; rw [hs, if_pos h]; exact h
    · right; rw [hs, if_neg h]
  · rw [hk]; exact Nat.mod_eq_of_lt h

/-- C4 at an accepted item with threshold -30 and window begin 93: found score -10 is
kept, found score -40 is replaced by the sentinel, and the sink is `93 + 3`. -/
theorem anchor_output_score_witness :
    (BestAnchorScoreStream.init_context env0 15 (pipeline0 (hit_at 100 0) (-30)) 0 ctx0).1
      = true ∧
    ((BestAnchorScoreStream.output env0 (pipeline0 (hit_at 100 0) (-30)) 0
      (BestAnchorScoreStream.scored_context env0 15 (pipeline0 (hit_at 100 0) (-30)) 0 ctx0
        (sink_of (-10) 3))).hits 0).score = -10 ∧
    ((BestAnchorScoreStream.output env0 (pipeline0 (hit_at 100 0) (-30)) 0
      (BestAnchorScoreStream.scored_context env0 15 (pipeline0 (hit_at 100 0) (-30)) 0 ctx0
        (sink_of (-40) 3))).hits 0).score = -2147483648 ∧
    ((BestAnchorScoreStream.output env0 (pipeline0 (hit_at 100 0) (-30)) 0
      (BestAnchorScoreStream.scored_context env0 15 (pipeline0 (hit_at 100 0) (-30)) 0 ctx0
        (sink_of (-10) 3))).hits 0).sink = 93 + 3 :=
  ⟨by decide,
   (anchor_output_score env0 (pipeline0 (hit_at 100 0) (-30)) 0
      (BestAnchorScoreStream.scored_context env0 15 (pipeline0 (hit_at 100 0) (-30)) 0 ctx0
        (sink_of (-10) 3))).1 (by decide),
   (anchor_output_score env0 (pipeline0 (hit_at 100 0) (-30)) 0
      (BestAnchorScoreStream.scored_context env0 15 (pipeline0 (hit_at 100 0) (-30)) 0 ctx0
        (sink_of (-40) 3))).2.1 (by decide),
   (anchor_output_score env0 (pipeline0 (hit_at 100 0) (-30)) 0
      (BestAnchorScoreStream.scored_context env0 15 (pipeline0 (hit_at 100 0) (-30)) 0 ctx0
        (sink_of (-10) 3))).2.2.2.2 (by decide)⟩

/-- C5: `BestOppositeScoreStream::output` writes `opposite_score` = the best found
score when it is at least `context.min_score` and the worst-score sentinel otherwise;
it writes `opposite_score2` = the second-best found score under the same test when
`DP_REPORT_MULTIPLE` is compiled in, and always the sentinel when it is compiled out;
in both builds it records `opposite_loc = context.genome_begin`. -/
theorem opposite_output_scores (E : Env) (best2 : BestColumnSink → Nat → Nat × Nat)
    (P : PipelineState) (i : Nat) (cm : AlignmentContext BestColumnSink)
    (cs : AlignmentContext BestSink) :
    let idx := best2 cm.sink (range_len cm.read_range / 2)
    let hm := (BestOppositeScoreStream.output_multiple E best2 P i cm).hits cm.idx
    let hs := (BestOppositeScoreStream.output_single E P i cs).hits cs.idx
    (hm.opposite_score =
        if cm.sink.scores idx.1 ≥ cm.min_score then cm.sink.scores idx.1 else E.worst_score) ∧
    (hm.opposite_score2 =
        if cm.sink.scores idx.2 ≥ cm.min_score then cm.sink.scores idx.2 else E.worst_score) ∧
    hm.opposite_loc = cm.genome_begin ∧
    (hs.opposite_score =
        if cs.sink.score ≥ cs.min_score then cs.sink.score else E.worst_score) ∧
    hs.opposite_score2 = E.worst_score ∧
    hs.opposite_loc = cs.genome_begin := by
  intro idx hm hs
  simp [hm, hs, idx, BestOppositeScoreStream.output_multiple,
    BestOppositeScoreStream.output_single]

/-- C6: the `target_pair_score` computed by the Anchor and the Opposite `init_context`
is at most `a_optimal_score + o_optimal_score`, as the `int32` sum the code computes,
and as the exact sum whenever that sum is representable in `int32`. -/
theorem target_pair_score_le_optimal (E : Env) (best : BestPairedAlignments)
    (a_worst_score o_worst_score a_optimal_score o_optimal_score : Int) :
    target_pair_score E best a_worst_score o_worst_score a_optimal_score o_optimal_score
      ≤ wrap32 (a_optimal_score + o_optimal_score) ∧
    (-2147483648 ≤ a_optimal_score + o_optimal_score ∧
      a_optimal_score + o_optimal_score ≤ 2147483647 →
      target_pair_score E best a_worst_score o_worst_score a_optimal_score o_optimal_score
        ≤ a_optimal_score + o_optimal_score) := by
  have h1 : target_pair_score E best a_worst_score o_worst_score a_optimal_score
      o_optimal_score ≤ wrap32 (a_optimal_score + o_optimal_score) := by
    unfold target_pair_score
    exact min_le_right _ _
  refine ⟨h1, fun h => ?_⟩
  have h2 : wrap32 (a_optimal_score + o_optimal_score) = a_optimal_score + o_optimal_score := by
    unfold wrap32
    omega
  rw [h2] at h1
  exact h1

/-- C6 at a pair of local-mode reads with perfect scores 100 and 100 and pair floor 40:
the target pair score 41 is at most 200. -/
theorem target_pair_score_le_optimal_witness :
    (-2147483648 ≤ (100 : Int) + 100 ∧ (100 : Int) + 100 ≤ 2147483647) ∧
    target_pair_score env0 (pipeline0 (hit_at 100 0) 0 |>.best_paired 0) 20 20 100 100
      ≤ 100 + 100 :=
  ⟨by decide,
   (target_pair_score_le_optimal env0 (pipeline0 (hit_at 100 0) 0 |>.best_paired 0)
      20 20 100 100).2 (by decide)⟩

/-- The Opposite `init_context` skips when the dedup test fires. -/
theorem opposite_skip_of_visited {σ : Type} (E : Env) (S : SinkOps σ)
    (DP_REPORT_MULTIPLE : Bool) (P : PipelineState) (m_params : ParamsPOD) (i : Nat)
    (context : AlignmentContext σ)
    (h : already_visited (P.best_paired (P.hits (P.idx_queue (P.opposite_queue i))).read_id)
      (opposite_mate P) (opposite_strand E P m_params i)
      (P.hits (P.idx_queue (P.opposite_queue i))).loc = true) :
    (BestOppositeScoreStream.init_context E S DP_REPORT_MULTIPLE P m_params i context).1
      = false := by
  by_cases hgt : opposite_threshold E P i > P.perfect_score (range_len (P.reads_o_get_range
      (P.hits (P.idx_queue (P.opposite_queue i))).read_id))
  · exact opposite_skip_of_threshold E S DP_REPORT_MULTIPLE P m_params i context hgt
  · have hr := (opposite_init_of_threshold_le E S DP_REPORT_MULTIPLE P m_params i context
      hgt).2.2.2
    simp only [] at hr
    rw [hr, h]
    simp

/-- C7: in `BestOppositeScoreStream::init_context`, with `mate = anchor ? 0 : 1`,
`strand = !o_fw` (the `read_rc` the method sets after framing) and
`location = hit.loc`, if one of the four recorded entries `m_a1`, `m_o1`, `m_a2`, `m_o2`
of the read has `(m_mate, m_rc, m_align) = (mate, strand, location)`, the method
returns skip. -/
theorem opposite_dedup_skips {σ : Type} (E : Env) (S : SinkOps σ)
    (DP_REPORT_MULTIPLE : Bool) (P : PipelineState) (m_params : ParamsPOD) (i : Nat)
    (context : AlignmentContext σ) :
    let hit := P.hits (P.idx_queue (P.opposite_queue i))
    let best := P.best_paired hit.read_id
    let mate := if P.anchor != 0 then 0 else 1
    let o_fw := (E.frame_opposite_mate m_params.pe_policy P.anchor (hit.seed_rc == 0)).2
    let strand := if o_fw then 0 else 1
    ∀ e ∈ [best.m_a1, best.m_o1, best.m_a2, best.m_o2],
      e.m_mate = mate ∧ e.m_rc = strand ∧ e.m_align = hit.loc →
      (BestOppositeScoreStream.init_context E S DP_REPORT_MULTIPLE P m_params i context).1
        = false := by
  intro hit best mate o_fw strand e he h
  exact opposite_skip_of_visited E S DP_REPORT_MULTIPLE P m_params i context
    (already_visited_of_entry best mate strand hit.loc e he h)

/-- C7 at the recorded entry (mate 1, strand 0, location 5000) and a reverse-strand
hit at location 5000, framed on strand 0: the item is skipped. -/
theorem opposite_dedup_skips_witness :
    (recorded_entry.m_mate = (if (pipeline_recorded (rc_hit_at 5000 0) (-30)).anchor != 0
        then 0 else 1) ∧
      recorded_entry.m_rc = (if (env_left.frame_opposite_mate 0 0 ((1 : Nat) == 0)).2
        then 0 else 1) ∧
      recorded_entry.m_align = (rc_hit_at 5000 0).loc) ∧
    (BestOppositeScoreStream.init_context env_left best_sink_ops false
      (pipeline_recorded (rc_hit_at 5000 0) (-30)) (params0 150 false) 0 ctx0).1 = false :=
  ⟨by decide,
   opposite_dedup_skips env_left best_sink_ops false
     (pipeline_recorded (rc_hit_at 5000 0) (-30)) (params0 150 false) 0 ctx0
     recorded_entry (by decide) (by decide)⟩

/-- C8, counterexample: the recorded best-opposite entry is (mate 1, strand 0,
location 5000); a reverse-strand hit at location 5100 is framed on strand 0 with the
window beginning at 5000, which `output` records as `opposite_loc = 5000`; the entry
has the mate index, the strand and that opposite location of the item, and
`init_context` accepts the item. -/
theorem opposite_dedup_ignores_window_begin :
    ((pipeline_recorded (rc_hit_at 5100 0) (-30)).best_paired 0).m_o1 = recorded_entry ∧
    recorded_entry.m_mate = (if (pipeline_recorded (rc_hit_at 5100 0) (-30)).anchor != 0
      then 0 else 1) ∧
    recorded_entry.m_rc = (BestOppositeScoreStream.init_context env_left best_sink_ops false
      (pipeline_recorded (rc_hit_at 5100 0) (-30)) (params0 150 false) 0 ctx0).2.read_rc ∧
    recorded_entry.m_align = (BestOppositeScoreStream.init_context env_left best_sink_ops false
      (pipeline_recorded (rc_hit_at 5100 0) (-30)) (params0 150 false) 0 ctx0).2.genome_begin ∧
    ((BestOppositeScoreStream.output_single env_left
      (pipeline_recorded (rc_hit_at 5100 0) (-30)) 0
      (BestOppositeScoreStream.scored_context env_left best_sink_ops
        (pipeline_recorded (rc_hit_at 5100 0) (-30)) (params0 150 false) 0 ctx0
        (sink_of (-10) 3))).hits 0).opposite_loc = 5000 ∧
    (BestOppositeScoreStream.init_context env_left best_sink_ops false
      (pipeline_recorded (rc_hit_at 5100 0) (-30)) (params0 150 false) 0 ctx0).1 = true := by
  decide

/-- C8, amended: the location the dedup test compares is the location `hit.loc` of the
hit, not the window begin: for every Opposite-mate item whose framed strand is `s`
and whose hit location is `L`, if one of the four recorded entries has the index of
the opposite mate, strand `s` and location `L`, `init_context` returns skip. -/
theorem opposite_dedup_at_hit_location {σ : Type} (E : Env) (S : SinkOps σ)
    (DP_REPORT_MULTIPLE : Bool) (P : PipelineState) (m_params : ParamsPOD) (i : Nat)
    (context : AlignmentContext σ) (s L : Nat) (e : Alignment)
    (hs : (if (E.frame_opposite_mate m_params.pe_policy P.anchor
      ((P.hits (P.idx_queue (P.opposite_queue i))).seed_rc == 0)).2 then 0 else 1) = s)
    (hL : (P.hits (P.idx_queue (P.opposite_queue i))).loc = L)
    (he : e ∈ [(P.best_paired (P.hits (P.idx_queue (P.opposite_queue i))).read_id).m_a1,
      (P.best_paired (P.hits (P.idx_queue (P.opposite_queue i))).read_id).m_o1,
      (P.best_paired (P.hits (P.idx_queue (P.opposite_queue i))).read_id).m_a2,
      (P.best_paired (P.hits (P.idx_queue (P.opposite_queue i))).read_id).m_o2])
    (hmate : e.m_mate = if P.anchor != 0 then 0 else 1)
    (hrc : e.m_rc = s) (hloc : e.m_align = L) :
    (BestOppositeScoreStream.init_context E S DP_REPORT_MULTIPLE P m_params i context).1
      = false := by
  subst hs hL
  exact opposite_skip_of_visited E S DP_REPORT_MULTIPLE P m_params i context
    (already_visited_of_entry _ _ _ _ e he ⟨hmate, hrc, hloc⟩)

/-- C8 amended, at the example of the dedup law: recorded best-opposite entry (mate 1,
strand 0, location 5000) and a reverse-strand hit at location 5000 framed on strand
0: the item is skipped. -/
theorem opposite_dedup_at_hit_location_witness :
    ((pipeline_recorded (rc_hit_at 5000 0) (-30)).hits 0).loc = 5000 ∧
    recorded_entry.m_mate = 1 ∧ recorded_entry.m_rc = 0 ∧ recorded_entry.m_align = 5000 ∧
    (BestOppositeScoreStream.init_context env_left best_sink_ops false
      (pipeline_recorded (rc_hit_at 5000 0) (-30)) (params0 150 false) 0 ctx0).1 = false :=
  ⟨by decide, by decide, by decide, by decide,
   opposite_dedup_at_hit_location env_left best_sink_ops false
     (pipeline_recorded (rc_hit_at 5000 0) (-30)) (params0 150 false) 0 ctx0 0 5000
     recorded_entry (by decide) (by decide) (by decide) (by decide) (by decide) (by decide)⟩

/-- C9: whenever `BestOppositeScoreStream::init_context` gets past the threshold check
it leaves the window `opposite_frame` in the context, and if that window has
`genome_begin == genome_end` it returns skip; on every path, a context left with
`genome_begin == genome_end` comes with the result skip, so no accepted item (the
only ones `output` is invoked for) has an empty window. -/
theorem opposite_empty_window_skips {σ : Type} (E : Env) (S : SinkOps σ)
    (DP_REPORT_MULTIPLE : Bool) (P : PipelineState) (m_params : ParamsPOD) (i : Nat)
    (context : AlignmentContext σ) :
    let r := BestOppositeScoreStream.init_context E S DP_REPORT_MULTIPLE P m_params i context
    let o_len := range_len (P.reads_o_get_range (P.hits (P.idx_queue (P.opposite_queue i))).read_id)
    (¬ opposite_threshold E P i > P.perfect_score o_len →
      r.2.genome_begin = (opposite_frame E P m_params i).1 ∧
      r.2.genome_end = (opposite_frame E P m_params i).2 ∧
      ((opposite_frame E P m_params i).1 = (opposite_frame E P m_params i).2 → r.1 = false)) ∧
    (r.2.genome_begin = r.2.genome_end → r.1 = false) ∧
    (r.1 = true → r.2.genome_begin ≠ r.2.genome_end) := by
  intro r o_len
  have key : r.2.genome_begin = r.2.genome_end → r.1 = false := by
    intro heq
    by_cases hgt : opposite_threshold E P i > P.perfect_score o_len
    · exact opposite_skip_of_threshold E S DP_REPORT_MULTIPLE P m_params i context hgt
    · obtain ⟨-, hb, he, hr⟩ :=
        opposite_init_of_threshold_le E S DP_REPORT_MULTIPLE P m_params i context hgt
      have hf : (opposite_frame E P m_params i).1 = (opposite_frame E P m_params i).2 := by
        rw [← hb, ← he]; exact heq
      show (BestOppositeScoreStream.init_context E S DP_REPORT_MULTIPLE P m_params i context).1
        = false
      rw [hr]
      simp [hf]
  refine ⟨fun hgt => ?_, key, fun hacc heq => ?_⟩
  · obtain ⟨-, hb, he, hr⟩ :=
      opposite_init_of_threshold_le E S DP_REPORT_MULTIPLE P m_params i context hgt
    refine ⟨hb, he, fun hf => ?_⟩
    show (BestOppositeScoreStream.init_context E S DP_REPORT_MULTIPLE P m_params i context).1
      = false
    rw [hr]
    simp [hf]
  · rw [key heq] at hacc
    exact Bool.false_ne_true hacc

/-- C9 at concrete items: a hit at location 0 framed to the left without overlap has
the window `[0, 0)` and is skipped; a hit at location 5100 has the window
`[5000, 5100)` and is accepted. -/
theorem opposite_empty_window_skips_witness :
    ((opposite_frame env_left (pipeline0 (hit_at 0 0) (-30)) (params0 150 false) 0).1 =
      (opposite_frame env_left (pipeline0 (hit_at 0 0) (-30)) (params0 150 false) 0).2 ∧
     (BestOppositeScoreStream.init_context env_left best_sink_ops false
      (pipeline0 (hit_at 0 0) (-30)) (params0 150 false) 0 ctx0).1 = false) ∧
    (BestOppositeScoreStream.init_context env_left best_sink_ops false
      (pipeline0 (hit_at 0 0) (-30)) (params0 150 false) 0 ctx0).1 = false ∧
    ((BestOppositeScoreStream.init_context env_left best_sink_ops false
      (pipeline0 (hit_at 5100 0) (-30)) (params0 150 false) 0 ctx0).1 = true ∧
     (BestOppositeScoreStream.init_context env_left best_sink_ops false
      (pipeline0 (hit_at 5100 0) (-30)) (params0 150 false) 0 ctx0).2.genome_begin ≠
     (BestOppositeScoreStream.init_context env_left best_sink_ops false
      (pipeline0 (hit_at 5100 0) (-30)) (params0 150 false) 0 ctx0).2.genome_end) :=
  ⟨⟨by decide,
    ((opposite_empty_window_skips env_left best_sink_ops false
      (pipeline0 (hit_at 0 0) (-30)) (params0 150 false) 0 ctx0).1 (by decide)).2.2
      (by decide)⟩,
   (opposite_empty_window_skips env_left best_sink_ops false
      (pipeline0 (hit_at 0 0) (-30)) (params0 150 false) 0 ctx0).2.1 (by decide),
   by decide,
   (opposite_empty_window_skips env_left best_sink_ops false
      (pipeline0 (hit_at 5100 0) (-30)) (params0 150 false) 0 ctx0).2.2 (by decide)⟩

/-- C10, evaluation of the code: with `max_frag_len = 10`, shorter than the 50-base
anchor, no overlap, and the opposite mate framed to the right of a hit at location
100, `BestOppositeScoreStream::init_context` accepts the item and leaves the window
`genome_begin = 150`, `genome_end = 110`: inside the genome of 10000 bases, and
inverted, so that its `uint32` length `genome_end - genome_begin` is 4294967256, far
above the `max_text_length() = max_frag_len = 10` the stream declares. -/
theorem opposite_accepts_inverted_window :
    (BestOppositeScoreStream.init_context env0 best_sink_ops false
      (pipeline0 (hit_at 100 0) (-30)) (params0 10 false) 0 ctx0).1 = true ∧
    (BestOppositeScoreStream.init_context env0 best_sink_ops false
      (pipeline0 (hit_at 100 0) (-30)) (params0 10 false) 0 ctx0).2.genome_begin = 150 ∧
    (BestOppositeScoreStream.init_context env0 best_sink_ops false
      (pipeline0 (hit_at 100 0) (-30)) (params0 10 false) 0 ctx0).2.genome_end = 110 ∧
    (pipeline0 (hit_at 100 0) (-30)).genome_length = 10000 ∧
    ¬ ((BestOppositeScoreStream.init_context env0 best_sink_ops false
      (pipeline0 (hit_at 100 0) (-30)) (params0 10 false) 0 ctx0).2.genome_begin <
      (BestOppositeScoreStream.init_context env0 best_sink_ops false
      (pipeline0 (hit_at 100 0) (-30)) (params0 10 false) 0 ctx0).2.genome_end) ∧
    usub (BestOppositeScoreStream.init_context env0 best_sink_ops false
      (pipeline0 (hit_at 100 0) (-30)) (params0 10 false) 0 ctx0).2.genome_end
      (BestOppositeScoreStream.init_context env0 best_sink_ops false
      (pipeline0 (hit_at 100 0) (-30)) (params0 10 false) 0 ctx0).2.genome_begin
      = 4294967256 := by
  decide

/-- One application of `AllScoreStream::output` to an accepted item: the hits are
untouched, the counter is incremented in `uint32`, and the two arrays are written at
`buffer_index` of the old counter. -/
theorem all_output_accepted (offset B : Nat) (P : AllMappingPipelineState) (c i : Nat)
    (context : AlignmentContext BestSink) (h : context.sink.score ≥ context.min_score) :
    (AllScoreStream.output offset B P c i context).2 = uadd c 1 ∧
    (AllScoreStream.output offset B P c i context).1.hits = P.hits ∧
    (AllScoreStream.output offset B P c i context).1.buffer_read_info =
      Function.update P.buffer_read_info (AllScoreStream.buffer_index offset B c)
        (AllScoreStream.entry P context).1 ∧
    (AllScoreStream.output offset B P c i context).1.buffer_alignments =
      Function.update P.buffer_alignments (AllScoreStream.buffer_index offset B c)
        (AllScoreStream.entry P context).2 := by
  unfold AllScoreStream.output AllScoreStream.entry
  simp only []
  rw [if_pos h]
  exact ⟨rfl, rfl, rfl, rfl⟩

/-- Two numbers less than `B` apart occupy different positions modulo `B`. -/
theorem mod_ne_of_lt_add (a b B : Nat) (h1 : a < b) (h2 : b < a + B) : a % B ≠ b % B := by
  intro h
  have hd : B ∣ b - a := (Nat.modEq_iff_dvd' (le_of_lt h1)).mp h
  have hle : B ≤ b - a := Nat.le_of_dvd (by omega) hd
  omega

/-- Invariant of the sequential application of `AllScoreStream::output` to `k` accepted
items while `buffer_offset + slot` does not overflow: the counter is `k`, the hits are
untouched, and each of the last `B` items sits at position `(offset + j) % B`. -/
theorem all_output_seq_invariant (offset B : Nat) (P : AllMappingPipelineState)
    (item : Nat → AlignmentContext BestSink) (k : Nat)
    (hacc : ∀ j, j < k → (item j).sink.score ≥ (item j).min_score)
    (hov : offset + k ≤ 4294967296) :
    (AllScoreStream.output_seq offset B P item k).2 = k % 4294967296 ∧
    (AllScoreStream.output_seq offset B P item k).1.hits = P.hits ∧
    ∀ j, j < k → k ≤ j + B →
      (AllScoreStream.output_seq offset B P item k).1.buffer_read_info ((offset + j) % B)
        = (AllScoreStream.entry P (item j)).1 ∧
      (AllScoreStream.output_seq offset B P item k).1.buffer_alignments ((offset + j) % B)
        = (AllScoreStream.entry P (item j)).2 := by
  induction k with
  | zero =>
    refine ⟨rfl, rfl, ?_⟩
    intro j hj
    omega
  | succ k ih =>
    obtain ⟨hc, hh, hb⟩ := ih (fun j hj => hacc j (by omega)) (by omega)
    have hstep := all_output_accepted offset B
      (AllScoreStream.output_seq offset B P item k).1
      (AllScoreStream.output_seq offset B P item k).2 k (item k) (hacc k (by omega))
    obtain ⟨s2, sh, sr, sa⟩ := hstep
    have hk : k % 4294967296 = k := Nat.mod_eq_of_lt (by omega)
    have hidx : AllScoreStream.buffer_index offset B
        (AllScoreStream.output_seq offset B P item k).2 = (offset + k) % B := by
      rw [hc, hk]
      unfold AllScoreStream.buffer_index uadd
      rw [Nat.mod_eq_of_lt (by omega : offset + k < 4294967296)]
    have hentry : AllScoreStream.entry (AllScoreStream.output_seq offset B P item k).1 (item k)
        = AllScoreStream.entry P (item k) := by
      unfold AllScoreStream.entry
      rw [hh]
    show (AllScoreStream.output offset B _ _ k (item k)).2 = _ ∧
      (AllScoreStream.output offset B _ _ k (item k)).1.hits = _ ∧ _
    refine ⟨?_, ?_, ?_⟩
    · rw [s2, hc, hk]
      rfl
    · rw [sh, hh]
    · intro j hj hjB
      show (AllScoreStream.output offset B _ _ k (item k)).1.buffer_read_info _ = _ ∧
        (AllScoreStream.output offset B _ _ k (item k)).1.buffer_alignments _ = _
      rw [sr, sa, hidx, hentry]
      by_cases hjk : j = k
      · subst hjk
        simp
      · have hlt : j < k := by omega
        have hne : (offset + j) % B ≠ (offset + k) % B :=
          mod_ne_of_lt_add (offset + j) (offset + k) B (by omega) (by omega)
        rw [Function.update_noteq hne, Function.update_noteq hne]
        exact hb j hlt (by omega)

/-- C11, counterexample: with capacity 3 and buffer offset 4294967295 the `uint32` sum
`buffer_offset + slot` wraps at the second item, so items 0 and 1 are both written at
position 0: after two accepted items position `(4294967295 + 0) mod 3 = 0` holds the
pair of item 1, not that of item 0, although `max(0, 2 - 3) <= 0 < 2`. -/
theorem all_ring_buffer_offset_wraps :
    (0 < 3 ∧ 2 - 3 ≤ 0 ∧ 0 < 2) ∧
    (∀ j, j < 2 → (all_item j).sink.score ≥ (all_item j).min_score) ∧
    (4294967295 + 0) % 3 = 0 ∧
    (AllScoreStream.output_seq 4294967295 3 all_pipeline0 all_item 2).2 = 2 ∧
    (AllScoreStream.output_seq 4294967295 3 all_pipeline0 all_item 2).1.buffer_read_info
      ((4294967295 + 0) % 3) = (AllScoreStream.entry all_pipeline0 (all_item 1)).1 ∧
    (AllScoreStream.output_seq 4294967295 3 all_pipeline0 all_item 2).1.buffer_read_info
      ((4294967295 + 0) % 3) ≠ (AllScoreStream.entry all_pipeline0 (all_item 0)).1 ∧
    (AllScoreStream.output_seq 4294967295 3 all_pipeline0 all_item 2).1.buffer_alignments
      ((4294967295 + 0) % 3) ≠ (AllScoreStream.entry all_pipeline0 (all_item 0)).2 := by
  decide

/-- C11, amended: starting from counter 0 with capacity `B > 0`, after
`AllScoreStream::output` has been applied one after the other to `k` accepted items
numbered `0..k-1`, and provided `buffer_offset + k <= 2^32` (the `uint32` sum
`buffer_offset + slot` never wraps), for every `j` with `max(0, k - B) <= j < k` the
position `(buffer_offset + j) mod B` holds the pair of item `j`, and for every
`j < k - B` that position holds the pair of a later item `j2` among the last `B`. -/
theorem all_ring_buffer_wraparound (offset B : Nat) (P : AllMappingPipelineState)
    (item : Nat → AlignmentContext BestSink) (k : Nat) (hB : 0 < B)
    (hacc : ∀ j, j < k → (item j).sink.score ≥ (item j).min_score)
    (hov : offset + k ≤ 4294967296) :
    (∀ j, k - B ≤ j → j < k →
      (AllScoreStream.output_seq offset B P item k).1.buffer_read_info ((offset + j) % B)
        = (AllScoreStream.entry P (item j)).1 ∧
      (AllScoreStream.output_seq offset B P item k).1.buffer_alignments ((offset + j) % B)
        = (AllScoreStream.entry P (item j)).2) ∧
    (∀ j, j < k - B → ∃ j2, j < j2 ∧ k - B ≤ j2 ∧ j2 < k ∧
      (offset + j2) % B = (offset + j) % B ∧
      (AllScoreStream.output_seq offset B P item k).1.buffer_read_info ((offset + j) % B)
        = (AllScoreStream.entry P (item j2)).1 ∧
      (AllScoreStream.output_seq offset B P item k).1.buffer_alignments ((offset + j) % B)
        = (AllScoreStream.entry P (item j2)).2) := by
  obtain ⟨-, -, hb⟩ := all_output_seq_invariant offset B P item k hacc hov
  refine ⟨fun j h1 h2 => hb j h2 (by omega), fun j hj => ?_⟩
  have hdm := Nat.div_add_mod (k - 1 - j) B
  have hml := Nat.mod_lt (k - 1 - j) hB
  generalize hq : B * ((k - 1 - j) / B) = m at hdm
  have hpos : (offset + (j + m)) % B = (offset + j) % B := by
    rw [← hq, ← Nat.add_assoc, Nat.add_mul_mod_self_left]
  have hj2 := hb (j + m) (by omega) (by omega)
  rw [hpos] at hj2
  exact ⟨j + m, by omega, by omega, by omega, hpos, hj2.1, hj2.2⟩

/-- C11 amended, at the example of the spec: capacity 10, 15 accepted items, offset 0:
position `j mod 10` holds the pair of item `j` for every `j` in `5..14`. -/
theorem all_ring_buffer_wraparound_witness :
    (0 < 10 ∧ (∀ j, j < 15 → (all_item j).sink.score ≥ (all_item j).min_score) ∧
      0 + 15 ≤ 4294967296) ∧
    ∀ j, 15 - 10 ≤ j → j < 15 →
      (AllScoreStream.output_seq 0 10 all_pipeline0 all_item 15).1.buffer_read_info
        ((0 + j) % 10) = (AllScoreStream.entry all_pipeline0 (all_item j)).1 ∧
      (AllScoreStream.output_seq 0 10 all_pipeline0 all_item 15).1.buffer_alignments
        ((0 + j) % 10) = (AllScoreStream.entry all_pipeline0 (all_item j)).2 :=
  ⟨⟨by decide, by decide, by decide⟩,
   (all_ring_buffer_wraparound 0 10 all_pipeline0 all_item 15 (by decide) (by decide)
      (by decide)).1⟩

/-- C12, counterexample: with buffer offset 4294967295, slot 1 and capacity 3,
`AllScoreStream::output` writes at index 0 (the read id 0 of the item replaces the
initial 4294967295 there, index 1 is untouched), while the mathematical value
`(buffer_offset + slot) mod capacity` is `4294967296 mod 3 = 1`. -/
theorem all_output_index_wraps :
    (all_item 0).sink.score ≥ (all_item 0).min_score ∧
    (4294967295 + 1) % 3 = 1 ∧
    AllScoreStream.buffer_index 4294967295 3 1 = 0 ∧
    (AllScoreStream.output 4294967295 3 all_pipeline0 1 0 (all_item 0)).1.buffer_read_info 0
      = 0 ∧
    all_pipeline0.buffer_read_info 0 = 4294967295 ∧
    (AllScoreStream.output 4294967295 3 all_pipeline0 1 0 (all_item 0)).1.buffer_read_info 1
      = all_pipeline0.buffer_read_info 1 ∧
    (AllScoreStream.output 4294967295 3 all_pipeline0 1 0 (all_item 0)).1.buffer_alignments 1
      = all_pipeline0.buffer_alignments 1 := by
  decide

/-- C12, amended: for every buffer offset, slot (the counter value the item
allocates) and capacity > 0, `AllScoreStream::output` writes the read id and the
alignment record of an accepted item at index
`((buffer_offset + slot) mod 2^32) mod capacity`; that index is always below the
capacity, and it equals `(buffer_offset + slot) mod capacity` whenever
`buffer_offset + slot < 2^32`. -/
theorem all_output_index (offset B slot : Nat) (P : AllMappingPipelineState) (i : Nat)
    (context : AlignmentContext BestSink) (hB : 0 < B)
    (h : context.sink.score ≥ context.min_score) :
    (AllScoreStream.output offset B P slot i context).1.buffer_read_info =
      Function.update P.buffer_read_info ((offset + slot) % 4294967296 % B)
        (P.hits context.idx).read_id ∧
    (AllScoreStream.output offset B P slot i context).1.buffer_alignments =
      Function.update P.buffer_alignments ((offset + slot) % 4294967296 % B)
        (Alignment.make (P.hits context.idx).loc 0 context.sink.score
          (P.hits context.idx).seed_rc) ∧
    (offset + slot) % 4294967296 % B < B ∧
    (offset + slot < 4294967296 →
      (offset + slot) % 4294967296 % B = (offset + slot) % B) := by
  obtain ⟨-, -, hr, ha⟩ := all_output_accepted offset B P slot i context h
  refine ⟨hr, ha, Nat.mod_lt _ hB, fun hlt => ?_⟩
  rw [Nat.mod_eq_of_lt hlt]

/-- C12 amended, at offset 7, slot 12 and capacity 10: the index is 9. -/
theorem all_output_index_witness :
    (0 < 10 ∧ (all_item 12).sink.score ≥ (all_item 12).min_score ∧ 7 + 12 < 4294967296) ∧
    (AllScoreStream.output 7 10 all_pipeline0 12 12 (all_item 12)).1.buffer_read_info =
      Function.update all_pipeline0.buffer_read_info ((7 + 12) % 4294967296 % 10)
        (all_pipeline0.hits (all_item 12).idx).read_id ∧
    (7 + 12) % 4294967296 % 10 = (7 + 12) % 10 :=
  ⟨⟨by decide, by decide, by decide⟩,
   (all_output_index 7 10 12 all_pipeline0 12 (all_item 12) (by decide) (by decide)).1,
   (all_output_index 7 10 12 all_pipeline0 12 (all_item 12) (by decide) (by decide)).2.2.2
     (by decide)⟩

/-- The method `AllScoreStream::output` changes nothing but the two ring-buffer
arrays and the counter. -/
theorem all_output_same_inputs (offset B : Nat) (P : AllMappingPipelineState) (c i : Nat)
    (context : AlignmentContext BestSink) :
    (AllScoreStream.output offset B P c i context).1.same_inputs P := by
  unfold AllScoreStream.output AllMappingPipelineState.same_inputs
  simp only []
  split_ifs <;> exact ⟨rfl, rfl, rfl, rfl, rfl, rfl, rfl⟩

/-- The counter after `AllScoreStream::output`: one more (in `uint32`) when the found
score is at least the threshold, unchanged otherwise. -/
theorem all_output_counter (offset B : Nat) (P : AllMappingPipelineState) (c i : Nat)
    (context : AlignmentContext BestSink) :
    (AllScoreStream.output offset B P c i context).2 =
      if context.sink.score ≥ context.min_score then (c + 1) % 4294967296 else c := by
  unfold AllScoreStream.output uadd
  simp only []
  split_ifs <;> rfl

/-- The method `AllScoreStream::init_context` reads nothing of the ring buffer. -/
theorem all_init_context_congr (E : Env) (band : Nat) (Q P : AllMappingPipelineState)
    (h : Q.same_inputs P) (i : Nat) (context : AlignmentContext BestSink) :
    AllScoreStream.init_context E band Q i context =
      AllScoreStream.init_context E band P i context := by
  obtain ⟨h1, h2, -, h4, -, h6, h7⟩ := h
  unfold AllScoreStream.init_context
  simp only [h1, h2, h4, h6, h7]

/-- The count of accepted items grows by one at an accepted item and not otherwise. -/
theorem all_accepted_count_succ (E : Env) (X : Executor) (is_local : Bool)
    (BAND_LEN band : Nat) (P : AllMappingPipelineState) (n : Nat) :
    AllScoreStream.accepted_count E X is_local BAND_LEN band P (n + 1) =
      AllScoreStream.accepted_count E X is_local BAND_LEN band P n +
      (if AllScoreStream.found_score E X is_local BAND_LEN band P n ≥
        P.min_score (range_len (P.reads_get_range (P.hits (P.idx_queue n)).read_id))
       then 1 else 0) := by
  unfold AllScoreStream.accepted_count
  rw [List.range_succ, List.filter_append, List.length_append]
  congr 1
  by_cases h : AllScoreStream.found_score E X is_local BAND_LEN band P n ≥
      P.min_score (range_len (P.reads_get_range (P.hits (P.idx_queue n)).read_id))
  · simp [h]
  · simp [h]

/-- The count of accepted items among the first `n` is at most `n`. -/
theorem all_accepted_count_le (E : Env) (X : Executor) (is_local : Bool)
    (BAND_LEN band : Nat) (P : AllMappingPipelineState) (n : Nat) :
    AllScoreStream.accepted_count E X is_local BAND_LEN band P n ≤ n := by
  unfold AllScoreStream.accepted_count
  calc ((List.range n).filter _).length ≤ (List.range n).length := List.length_filter_le _ _
    _ = n := List.length_range n

/-- Invariant of the round of the All stream from counter 0: the inputs of the stream
are untouched and the counter is the number of accepted items so far, in `uint32`. -/
theorem all_enact_invariant (E : Env) (X : Executor) (is_local : Bool)
    (BAND_LEN band offset B : Nat) (P : AllMappingPipelineState) (n : Nat) :
    (AllScoreStream.enact E X is_local BAND_LEN band offset B P 0 n).1.same_inputs P ∧
    (AllScoreStream.enact E X is_local BAND_LEN band offset B P 0 n).2 =
      AllScoreStream.accepted_count E X is_local BAND_LEN band P n % 4294967296 := by
  induction n with
  | zero => exact ⟨⟨rfl, rfl, rfl, rfl, rfl, rfl, rfl⟩, rfl⟩
  | succ n ih =>
    obtain ⟨hs, hc⟩ := ih
    have hinit := all_init_context_congr E band _ P hs n (X.prior n)
    have hacc : (AllScoreStream.init_context E band P n (X.prior n)).1 = true := rfl
    have hstep : AllScoreStream.enact E X is_local BAND_LEN band offset B P 0 (n + 1) =
        AllScoreStream.output offset B
          (AllScoreStream.enact E X is_local BAND_LEN band offset B P 0 n).1
          (AllScoreStream.enact E X is_local BAND_LEN band offset B P 0 n).2 n
          { (AllScoreStream.init_context E band P n (X.prior n)).2 with
            sink := X.dp is_local BAND_LEN n
              (AllScoreStream.init_context E band P n (X.prior n)).2 } := by
      simp only [AllScoreStream.enact]
      rw [hinit, if_pos hacc]
    rw [hstep]
    refine ⟨?_, ?_⟩
    · have h1 := all_output_same_inputs offset B
        (AllScoreStream.enact E X is_local BAND_LEN band offset B P 0 n).1
        (AllScoreStream.enact E X is_local BAND_LEN band offset B P 0 n).2 n
        { (AllScoreStream.init_context E band P n (X.prior n)).2 with
          sink := X.dp is_local BAND_LEN n
            (AllScoreStream.init_context E band P n (X.prior n)).2 }
      unfold AllMappingPipelineState.same_inputs at h1 hs ⊢
      obtain ⟨a1, a2, a3, a4, a5, a6, a7⟩ := h1
      obtain ⟨b1, b2, b3, b4, b5, b6, b7⟩ := hs
      exact ⟨a1.trans b1, a2.trans b2, a3.trans b3, a4.trans b4, a5.trans b5, a6.trans b6,
        a7.trans b7⟩
    · rw [all_output_counter, all_accepted_count_succ, hc]
      have hf : AllScoreStream.found_score E X is_local BAND_LEN band P n =
          (X.dp is_local BAND_LEN n
            (AllScoreStream.init_context E band P n (X.prior n)).2).score := rfl
      have hm : (AllScoreStream.init_context E band P n (X.prior n)).2.min_score =
          P.min_score (range_len (P.reads_get_range (P.hits (P.idx_queue n)).read_id)) := rfl
      simp only [hf, hm]
      split_ifs <;> omega

/-- The kernel width that the if-chain of `banded_score_all` selects is the band
length `static_band_len` given to the stream. -/
theorem banded_score_all_eq_enact (E : Env) (X : Executor) (is_local : Bool)
    (band_len : Nat) (P : AllMappingPipelineState) (offset B c : Nat) :
    banded_score_all E X is_local band_len P offset B c =
      AllScoreStream.enact E X is_local (static_band_len band_len) (static_band_len band_len)
        offset B P c P.hits_queue_size := by
  unfold banded_score_all static_band_len
  simp only []
  split_ifs <;> rfl

/-- C13: for a round of the All stream over the `hits_queue_size` items of the queue
(a `uint32`), with the counter initialised to 0, the value `score_all_t` returns is
the number of items whose found score satisfies `sink.score >= context.min_score`,
where `context.min_score = scoring_scheme.min_score(read_len)`; and each call of
`AllScoreStream::output` increments the counter by exactly one when that test holds
and leaves it unchanged otherwise. -/
theorem score_all_returns_accepted_count (E : Env) (X : Executor) (band_len : Nat)
    (P : AllMappingPipelineState) (local_alignment : Bool) (ring_offset ring_size : Nat)
    (hN : P.hits_queue_size < 4294967296) :
    (score_all_t E X band_len P local_alignment ring_offset ring_size).1 =
      ((List.range P.hits_queue_size).filter (fun i =>
        decide ((X.dp local_alignment (static_band_len band_len) i
            (AllScoreStream.init_context E (static_band_len band_len) P i (X.prior i)).2).score
          ≥ P.min_score (range_len (P.reads_get_range (P.hits (P.idx_queue i)).read_id))))).length ∧
    (∀ i context, (AllScoreStream.init_context E (static_band_len band_len) P i context).2.min_score
      = P.min_score (range_len (P.reads_get_range (P.hits (P.idx_queue i)).read_id))) ∧
    (∀ (Q : AllMappingPipelineState) (c i : Nat) (context : AlignmentContext BestSink),
      c + 1 < 4294967296 →
      (AllScoreStream.output ring_offset ring_size Q c i context).2 =
        if context.sink.score ≥ context.min_score then c + 1 else c) := by
  refine ⟨?_, fun i context => rfl, fun Q c i context hc => ?_⟩
  · have hinv := (all_enact_invariant E X local_alignment (static_band_len band_len)
      (static_band_len band_len) ring_offset ring_size P P.hits_queue_size).2
    have hle := all_accepted_count_le E X local_alignment (static_band_len band_len)
      (static_band_len band_len) P P.hits_queue_size
    have hval : (score_all_t E X band_len P local_alignment ring_offset ring_size).1 =
        (AllScoreStream.enact E X local_alignment (static_band_len band_len)
          (static_band_len band_len) ring_offset ring_size P 0 P.hits_queue_size).2 := by
      unfold score_all_t
      cases local_alignment <;> simp only [banded_score_all_eq_enact] <;> rfl
    rw [hval, hinv, Nat.mod_eq_of_lt (by omega)]
    rfl
  · rw [all_output_counter, Nat.mod_eq_of_lt hc]

/-- C13 on a round of 15 items with threshold -30 where the even items score -10 and
the odd items score -40: `score_all_t` returns 8. -/
theorem score_all_returns_accepted_count_witness :
    all_pipeline0.hits_queue_size < 4294967296 ∧
    (score_all_t env0 executor0 10 all_pipeline0 false 0 10).1 = 8 ∧
    (AllScoreStream.output 0 10 all_pipeline0 3 3 (all_item 3)).2 = 3 + 1 :=
  ⟨by decide,
   (score_all_returns_accepted_count env0 executor0 10 all_pipeline0 false 0 10
      (by decide)).1.trans (by decide),
   ((score_all_returns_accepted_count env0 executor0 10 all_pipeline0 false 0 10
      (by decide)).2.2 all_pipeline0 3 3 (all_item 3) (by decide)).trans (by decide)⟩

/-- Writes to two different hits commute. -/
theorem with_hit_comm (P : PipelineState) (k1 k2 : Nat) (h1 h2 : Hit) (hne : k1 ≠ k2) :
    (P.with_hit k1 h1).with_hit k2 h2 = (P.with_hit k2 h2).with_hit k1 h1 := by
  unfold PipelineState.with_hit
  simp only [Function.update_comm hne]

/-- A step that rewrites one hit, chosen and computed without reading any other hit,
gives the same fold over every permutation of items with distinct hits. -/
theorem foldl_perm_of_local (f : PipelineState → Nat → PipelineState)
    (key : PipelineState → Nat → Nat)
    (hshape : ∀ P i, ∃ h, f P i = P.with_hit (key P i) h)
    (hkey : ∀ P k h i, key (P.with_hit k h) i = key P i)
    (hframe : ∀ P i k h, k ≠ key P i → f (P.with_hit k h) i = (f P i).with_hit k h)
    {l1 l2 : List Nat} (hp : l1.Perm l2) :
    ∀ P, (∀ i ∈ l1, ∀ j ∈ l1, i ≠ j → key P i ≠ key P j) →
      l1.foldl f P = l2.foldl f P := by
  induction hp with
  | nil => intro P _; rfl
  | cons x _ ih =>
    intro P hd
    simp only [List.foldl_cons]
    apply ih
    intro i hi j hj hij
    obtain ⟨h, hx⟩ := hshape P x
    rw [hx, hkey, hkey]
    exact hd i (List.mem_cons_of_mem _ hi) j (List.mem_cons_of_mem _ hj) hij
  | swap x y l =>
    intro P hd
    simp only [List.foldl_cons]
    congr 1
    by_cases hxy : x = y
    · subst hxy; rfl
    · have hk : key P y ≠ key P x :=
        hd y (by simp) x (by simp) (fun h => hxy h.symm)
      obtain ⟨h1, hx⟩ := hshape P x
      obtain ⟨h2, hy⟩ := hshape P y
      have e1 : f (f P y) x = (P.with_hit (key P x) h1).with_hit (key P y) h2 := by
        rw [hy, hframe P x (key P y) h2 hk, hx]
      have e2 : f (f P x) y = (P.with_hit (key P y) h2).with_hit (key P x) h1 := by
        rw [hx, hframe P y (key P x) h1 hk.symm, hy]
      rw [e1, e2]
      exact with_hit_comm P (key P x) (key P y) h1 h2 hk.symm
  | trans hp1 _ ih1 ih2 =>
    intro P hd
    rw [ih1 P hd]
    apply ih2
    intro i hi j hj hij
    exact hd i (hp1.mem_iff.mpr hi) j (hp1.mem_iff.mpr hj) hij

/-- Rewriting a hit with its own value changes nothing. -/
theorem with_hit_self (P : PipelineState) (k : Nat) : P.with_hit k (P.hits k) = P := by
  unfold PipelineState.with_hit
  simp

/-- The cycle of one item rewrites one hit when `output` does. -/
theorem stream_item_shape {σ : Type}
    (init : PipelineState → Nat → AlignmentContext σ → Bool × AlignmentContext σ)
    (output : PipelineState → Nat → AlignmentContext σ → PipelineState)
    (dp : Nat → AlignmentContext σ → σ) (prior : Nat → AlignmentContext σ)
    (key : PipelineState → Nat → Nat)
    (hidx : ∀ P i c, (init P i c).1 = true → (init P i c).2.idx = key P i)
    (hout : ∀ P i c, ∃ h, output P i c = P.with_hit c.idx h) (P : PipelineState) (i : Nat) :
    ∃ h, stream_item init output dp prior P i = P.with_hit (key P i) h := by
  unfold stream_item
  simp only []
  split_ifs with hacc
  · obtain ⟨h, hh⟩ := hout P i { (init P i (prior i)).2 with sink := dp i (init P i (prior i)).2 }
    refine ⟨h, ?_⟩
    rw [hh]
    show P.with_hit (init P i (prior i)).2.idx h = _
    rw [hidx P i (prior i) hacc]
  · exact ⟨P.hits (key P i), (with_hit_self P (key P i)).symm⟩

/-- The cycle of one item commutes with a write to another hit when `init_context`
does not read that hit and `output` commutes with the write. -/
theorem stream_item_frame {σ : Type}
    (init : PipelineState → Nat → AlignmentContext σ → Bool × AlignmentContext σ)
    (output : PipelineState → Nat → AlignmentContext σ → PipelineState)
    (dp : Nat → AlignmentContext σ → σ) (prior : Nat → AlignmentContext σ)
    (key : PipelineState → Nat → Nat)
    (hidx : ∀ P i c, (init P i c).1 = true → (init P i c).2.idx = key P i)
    (hinit : ∀ P i c k h, k ≠ key P i → init (P.with_hit k h) i c = init P i c)
    (hout : ∀ P i c k h, k ≠ c.idx → output (P.with_hit k h) i c = (output P i c).with_hit k h)
    (P : PipelineState) (i k : Nat) (h : Hit) (hk : k ≠ key P i) :
    stream_item init output dp prior (P.with_hit k h) i =
      (stream_item init output dp prior P i).with_hit k h := by
  unfold stream_item
  simp only []
  rw [hinit P i (prior i) k h hk]
  split_ifs with hacc
  · apply hout
    show k ≠ (init P i (prior i)).2.idx
    rw [hidx P i (prior i) hacc]
    exact hk
  · rfl

/-- The Best `init_context` reads no hit but its own. -/
theorem best_init_frame (E : Env) (band : Nat) (P : PipelineState) (i : Nat)
    (c : AlignmentContext BestSink) (k : Nat) (h : Hit) (hk : k ≠ P.idx_queue i) :
    BestScoreStream.init_context E band (P.with_hit k h) i c =
      BestScoreStream.init_context E band P i c := by
  unfold BestScoreStream.init_context PipelineState.with_hit
  simp only [Function.update_noteq hk.symm]

/-- The Anchor `init_context` reads no hit but its own. -/
theorem anchor_init_frame (E : Env) (band : Nat) (P : PipelineState) (i : Nat)
    (c : AlignmentContext BestSink) (k : Nat) (h : Hit) (hk : k ≠ P.idx_queue i) :
    BestAnchorScoreStream.init_context E band (P.with_hit k h) i c =
      BestAnchorScoreStream.init_context E band P i c := by
  unfold BestAnchorScoreStream.init_context PipelineState.with_hit PipelineState.best_paired
  simp only [Function.update_noteq hk.symm]

/-- The Opposite `init_context` reads no hit but its own. -/
theorem opposite_init_frame {σ : Type} (E : Env) (S : SinkOps σ) (flag : Bool)
    (m_params : ParamsPOD) (P : PipelineState) (i : Nat)
    (c : AlignmentContext σ) (k : Nat) (h : Hit)
    (hk : k ≠ P.idx_queue (P.opposite_queue i)) :
    BestOppositeScoreStream.init_context E S flag (P.with_hit k h) m_params i c =
      BestOppositeScoreStream.init_context E S flag P m_params i c := by
  unfold BestOppositeScoreStream.init_context PipelineState.with_hit PipelineState.best_paired
  simp only [Function.update_noteq hk.symm]

/-- The Opposite `init_context` sets `context->idx` to the position of its hit. -/
theorem opposite_init_idx {σ : Type} (E : Env) (S : SinkOps σ) (flag : Bool)
    (m_params : ParamsPOD) (P : PipelineState) (i : Nat) (c : AlignmentContext σ) :
    (BestOppositeScoreStream.init_context E S flag P m_params i c).2.idx =
      P.idx_queue (P.opposite_queue i) := by
  unfold BestOppositeScoreStream.init_context
  simp only []
  split_ifs <;> rfl

/-- The method `BestScoreStream::output` commutes with a write to another hit. -/
theorem best_output_frame (E : Env) (P : PipelineState) (i : Nat)
    (c : AlignmentContext BestSink) (k : Nat) (h : Hit) (hk : k ≠ c.idx) :
    BestScoreStream.output E (P.with_hit k h) i c =
      (BestScoreStream.output E P i c).with_hit k h := by
  unfold BestScoreStream.output PipelineState.with_hit
  simp only [Function.update_noteq hk.symm, Function.update_comm hk]

/-- The method `BestAnchorScoreStream::output` commutes with a write to another hit. -/
theorem anchor_output_frame (E : Env) (P : PipelineState) (i : Nat)
    (c : AlignmentContext BestSink) (k : Nat) (h : Hit) (hk : k ≠ c.idx) :
    BestAnchorScoreStream.output E (P.with_hit k h) i c =
      (BestAnchorScoreStream.output E P i c).with_hit k h := by
  unfold BestAnchorScoreStream.output PipelineState.with_hit
  simp only [Function.update_noteq hk.symm, Function.update_comm hk]

/-- The method `BestOppositeScoreStream::output` (one sink) commutes with a write to
another hit. -/
theorem opposite_output_single_frame (E : Env) (P : PipelineState) (i : Nat)
    (c : AlignmentContext BestSink) (k : Nat) (h : Hit) (hk : k ≠ c.idx) :
    BestOppositeScoreStream.output_single E (P.with_hit k h) i c =
      (BestOppositeScoreStream.output_single E P i c).with_hit k h := by
  unfold BestOppositeScoreStream.output_single PipelineState.with_hit
  simp only [Function.update_noteq hk.symm, Function.update_comm hk]

/-- The method `BestOppositeScoreStream::output` (two sinks) commutes with a write to
another hit. -/
theorem opposite_output_multiple_frame (E : Env) (best2 : BestColumnSink → Nat → Nat × Nat)
    (P : PipelineState) (i : Nat) (c : AlignmentContext BestColumnSink) (k : Nat) (h : Hit)
    (hk : k ≠ c.idx) :
    BestOppositeScoreStream.output_multiple E best2 (P.with_hit k h) i c =
      (BestOppositeScoreStream.output_multiple E best2 P i c).with_hit k h := by
  unfold BestOppositeScoreStream.output_multiple PipelineState.with_hit
  simp only [Function.update_noteq hk.symm, Function.update_comm hk]

/-- Two outputs that each rewrite the hit of their context and commute with writes to
other hits commute with one another. -/
theorem output_comm_of_frame {σ : Type}
    (output : PipelineState → Nat → AlignmentContext σ → PipelineState)
    (hshape : ∀ P i c, ∃ h, output P i c = P.with_hit c.idx h)
    (hframe : ∀ P i c k h, k ≠ c.idx → output (P.with_hit k h) i c = (output P i c).with_hit k h)
    (P : PipelineState) (i j : Nat) (ci cj : AlignmentContext σ) (hne : cj.idx ≠ ci.idx) :
    output (output P j cj) i ci = output (output P i ci) j cj := by
  obtain ⟨hi, ei⟩ := hshape P i ci
  obtain ⟨hj, ej⟩ := hshape P j cj
  rw [ej, hframe P i ci cj.idx hj hne, ei, hframe P j cj ci.idx hi hne.symm, ej]
  exact with_hit_comm P ci.idx cj.idx hi hj hne.symm

/-- The method `BestScoreStream::output` rewrites the hit of its context. -/
theorem best_output_shape (E : Env) (P : PipelineState) (i : Nat)
    (c : AlignmentContext BestSink) : ∃ h, BestScoreStream.output E P i c = P.with_hit c.idx h :=
  ⟨_, rfl⟩

/-- The method `BestAnchorScoreStream::output` rewrites the hit of its context. -/
theorem anchor_output_shape (E : Env) (P : PipelineState) (i : Nat)
    (c : AlignmentContext BestSink) :
    ∃ h, BestAnchorScoreStream.output E P i c = P.with_hit c.idx h :=
  ⟨_, rfl⟩

/-- The method `BestOppositeScoreStream::output` (one sink) rewrites the hit of its
context. -/
theorem opposite_output_single_shape (E : Env) (P : PipelineState) (i : Nat)
    (c : AlignmentContext BestSink) :
    ∃ h, BestOppositeScoreStream.output_single E P i c = P.with_hit c.idx h :=
  ⟨_, rfl⟩

/-- The method `BestOppositeScoreStream::output` (two sinks) rewrites the hit of its
context. -/
theorem opposite_output_multiple_shape (E : Env) (best2 : BestColumnSink → Nat → Nat × Nat)
    (P : PipelineState) (i : Nat) (c : AlignmentContext BestColumnSink) :
    ∃ h, BestOppositeScoreStream.output_multiple E best2 P i c = P.with_hit c.idx h :=
  ⟨_, rfl⟩

/-- Rounds with given context contents: for a fixed pipeline state, per-item context
objects `prior` whose content does not depend on the order, and a DP step
`dp` that depends on the item and its context only, a round of the Best, the Anchor
or the Opposite stream (either build) leaves the same pipeline state, hence the same
hit records, for every permutation of items that address distinct hit positions; an
`init_context` result is not changed by the `output` of an item with another hit
position, and the outputs of two items with different hit positions commute. -/
theorem streams_order_independent (E : Env) (band : Nat) (SB : SinkOps BestSink)
    (SC : SinkOps BestColumnSink) (best2 : BestColumnSink → Nat → Nat × Nat)
    (m_params : ParamsPOD)
    (dp : Nat → AlignmentContext BestSink → BestSink)
    (prior : Nat → AlignmentContext BestSink)
    (dpc : Nat → AlignmentContext BestColumnSink → BestColumnSink)
    (priorc : Nat → AlignmentContext BestColumnSink)
    (P : PipelineState) (l1 l2 : List Nat) (hp : l1.Perm l2) :
    ((∀ i ∈ l1, ∀ j ∈ l1, i ≠ j → P.idx_queue i ≠ P.idx_queue j) →
      run_items (BestScoreStream.item E band dp prior) l1 P =
        run_items (BestScoreStream.item E band dp prior) l2 P ∧
      run_items (BestAnchorScoreStream.item E band dp prior) l1 P =
        run_items (BestAnchorScoreStream.item E band dp prior) l2 P) ∧
    ((∀ i ∈ l1, ∀ j ∈ l1, i ≠ j →
        P.idx_queue (P.opposite_queue i) ≠ P.idx_queue (P.opposite_queue j)) →
      run_items (BestOppositeScoreStream.item_single E SB m_params dp prior) l1 P =
        run_items (BestOppositeScoreStream.item_single E SB m_params dp prior) l2 P ∧
      run_items (BestOppositeScoreStream.item_multiple E SC best2 m_params dpc priorc) l1 P =
        run_items (BestOppositeScoreStream.item_multiple E SC best2 m_params dpc priorc) l2 P) ∧
    (∀ (i j : Nat) (ci cj c : AlignmentContext BestSink), cj.idx ≠ P.idx_queue i →
      BestScoreStream.init_context E band (BestScoreStream.output E P j cj) i c =
        BestScoreStream.init_context E band P i c ∧
      BestAnchorScoreStream.init_context E band (BestAnchorScoreStream.output E P j cj) i c =
        BestAnchorScoreStream.init_context E band P i c ∧
      (cj.idx ≠ ci.idx →
        BestScoreStream.output E (BestScoreStream.output E P j cj) i ci =
          BestScoreStream.output E (BestScoreStream.output E P i ci) j cj ∧
        BestAnchorScoreStream.output E (BestAnchorScoreStream.output E P j cj) i ci =
          BestAnchorScoreStream.output E (BestAnchorScoreStream.output E P i ci) j cj)) ∧
    (∀ (i j : Nat) (ci cj c : AlignmentContext BestSink),
      cj.idx ≠ P.idx_queue (P.opposite_queue i) →
      BestOppositeScoreStream.init_context E SB false
          (BestOppositeScoreStream.output_single E P j cj) m_params i c =
        BestOppositeScoreStream.init_context E SB false P m_params i c ∧
      (cj.idx ≠ ci.idx →
        BestOppositeScoreStream.output_single E
            (BestOppositeScoreStream.output_single E P j cj) i ci =
          BestOppositeScoreStream.output_single E
            (BestOppositeScoreStream.output_single E P i ci) j cj)) := by
  refine ⟨fun hd => ⟨?_, ?_⟩, fun hd => ⟨?_, ?_⟩, fun i j ci cj c hk => ⟨?_, ?_, fun hne => ⟨?_, ?_⟩⟩,
    fun i j ci cj c hk => ⟨?_, fun hne => ?_⟩⟩
  · exact foldl_perm_of_local _ (fun Q i => Q.idx_queue i)
      (stream_item_shape (BestScoreStream.init_context E band) (BestScoreStream.output E)
        dp prior _ (fun _ _ _ _ => rfl) (best_output_shape E))
      (fun _ _ _ _ => rfl)
      (stream_item_frame (BestScoreStream.init_context E band) (BestScoreStream.output E)
        dp prior _ (fun _ _ _ _ => rfl) (best_init_frame E band) (best_output_frame E)) hp P hd
  · exact foldl_perm_of_local _ (fun Q i => Q.idx_queue i)
      (stream_item_shape (BestAnchorScoreStream.init_context E band)
        (BestAnchorScoreStream.output E) dp prior _ (fun _ _ _ _ => rfl)
        (anchor_output_shape E))
      (fun _ _ _ _ => rfl)
      (stream_item_frame (BestAnchorScoreStream.init_context E band)
        (BestAnchorScoreStream.output E) dp prior _ (fun _ _ _ _ => rfl)
        (anchor_init_frame E band) (anchor_output_frame E)) hp P hd
  · exact foldl_perm_of_local _ (fun Q i => Q.idx_queue (Q.opposite_queue i))
      (stream_item_shape (fun Q => BestOppositeScoreStream.init_context E SB false Q m_params)
        (BestOppositeScoreStream.output_single E) dp prior _
        (fun Q i c _ => opposite_init_idx E SB false m_params Q i c)
        (opposite_output_single_shape E))
      (fun _ _ _ _ => rfl)
      (stream_item_frame (fun Q => BestOppositeScoreStream.init_context E SB false Q m_params)
        (BestOppositeScoreStream.output_single E) dp prior _
        (fun Q i c _ => opposite_init_idx E SB false m_params Q i c)
        (fun Q i c k h hk => opposite_init_frame E SB false m_params Q i c k h hk)
        (opposite_output_single_frame E)) hp P hd
  · exact foldl_perm_of_local _ (fun Q i => Q.idx_queue (Q.opposite_queue i))
      (stream_item_shape (fun Q => BestOppositeScoreStream.init_context E SC true Q m_params)
        (BestOppositeScoreStream.output_multiple E best2) dpc priorc _
        (fun Q i c _ => opposite_init_idx E SC true m_params Q i c)
        (opposite_output_multiple_shape E best2))
      (fun _ _ _ _ => rfl)
      (stream_item_frame (fun Q => BestOppositeScoreStream.init_context E SC true Q m_params)
        (BestOppositeScoreStream.output_multiple E best2) dpc priorc _
        (fun Q i c _ => opposite_init_idx E SC true m_params Q i c)
        (fun Q i c k h hk => opposite_init_frame E SC true m_params Q i c k h hk)
        (opposite_output_multiple_frame E best2)) hp P hd
  · obtain ⟨h, e⟩ := best_output_shape E P j cj
    rw [e]
    exact best_init_frame E band P i c cj.idx h hk
  · obtain ⟨h, e⟩ := anchor_output_shape E P j cj
    rw [e]
    exact anchor_init_frame E band P i c cj.idx h hk
  · exact output_comm_of_frame (BestScoreStream.output E) (best_output_shape E)
      (best_output_frame E) P i j ci cj hne
  · exact output_comm_of_frame (BestAnchorScoreStream.output E) (anchor_output_shape E)
      (anchor_output_frame E) P i j ci cj hne
  · obtain ⟨h, e⟩ := opposite_output_single_shape E P j cj
    rw [e]
    exact opposite_init_frame E SB false m_params P i c cj.idx h hk
  · exact output_comm_of_frame (BestOppositeScoreStream.output_single E)
      (opposite_output_single_shape E) (opposite_output_single_frame E) P i j ci cj hne

/-- The rounds of `streams_order_independent` on the two items of `pipeline_two`, taken
in the orders `[0, 1]` and `[1, 0]` with the same context contents in both:
the Best and the Opposite round leave the same pipeline state, and the Best round
leaves score -5 in hit 0 and score -6 in hit 1. -/
theorem streams_order_independent_witness :
    (List.Perm [0, 1] [1, 0] ∧
      (∀ i ∈ [0, 1], ∀ j ∈ [0, 1], i ≠ j →
        (pipeline_two (-30)).idx_queue i ≠ (pipeline_two (-30)).idx_queue j)) ∧
    (run_items (BestScoreStream.item env0 15 dp0 (fun _ => ctx0)) [0, 1] (pipeline_two (-30)) =
      run_items (BestScoreStream.item env0 15 dp0 (fun _ => ctx0)) [1, 0] (pipeline_two (-30))) ∧
    (run_items (BestOppositeScoreStream.item_single env0 best_sink_ops (params0 500 true)
        dp0 (fun _ => ctx0)) [0, 1] (pipeline_two (-30)) =
      run_items (BestOppositeScoreStream.item_single env0 best_sink_ops (params0 500 true)
        dp0 (fun _ => ctx0)) [1, 0] (pipeline_two (-30))) ∧
    ((run_items (BestScoreStream.item env0 15 dp0 (fun _ => ctx0)) [1, 0]
        (pipeline_two (-30))).hits 0).score = -5 ∧
    ((run_items (BestScoreStream.item env0 15 dp0 (fun _ => ctx0)) [1, 0]
        (pipeline_two (-30))).hits 1).score = -6 :=
  ⟨⟨by decide, by decide⟩,
   ((streams_order_independent env0 15 best_sink_ops
      { invalidate := fun s => s, set_min_score := fun s _ => s } (fun _ _ => (0, 1))
      (params0 500 true) dp0 (fun _ => ctx0)
      (fun _ c => c.sink) (fun _ => { ctx0 with sink := { scores := fun _ => 0, sinks := fun _ => { x := 0, y := 0 } } })
      (pipeline_two (-30)) [0, 1] [1, 0] (by decide)).1 (by decide)).1,
   ((streams_order_independent env0 15 best_sink_ops
      { invalidate := fun s => s, set_min_score := fun s _ => s } (fun _ _ => (0, 1))
      (params0 500 true) dp0 (fun _ => ctx0)
      (fun _ c => c.sink) (fun _ => { ctx0 with sink := { scores := fun _ => 0, sinks := fun _ => { x := 0, y := 0 } } })
      (pipeline_two (-30)) [0, 1] [1, 0] (by decide)).2.1 (by decide)).1,
   by decide, by decide⟩

/-- C15, evaluation of the code: on one pipeline state and one item (item 1 of
`pipeline_two`), `BestAnchorScoreStream::init_context` accepts with `min_score = -30`
when the context held `min_score = 0` before the call, and skips with
`min_score = 2147483647` when the context is the one the same method left for
item 0, which it skipped as already visited. -/
theorem anchor_init_depends_on_prior_context :
    (BestAnchorScoreStream.init_context env0 15 (pipeline_two (-30)) 0 ctx0).1 = false ∧
    (BestAnchorScoreStream.init_context env0 15 (pipeline_two (-30)) 0 ctx0).2.min_score
      = 2147483647 ∧
    (BestAnchorScoreStream.init_context env0 15 (pipeline_two (-30)) 1 ctx0).1 = true ∧
    (BestAnchorScoreStream.init_context env0 15 (pipeline_two (-30)) 1 ctx0).2.min_score
      = -30 ∧
    (BestAnchorScoreStream.init_context env0 15 (pipeline_two (-30)) 1
      (BestAnchorScoreStream.init_context env0 15 (pipeline_two (-30)) 0 ctx0).2).1 = false ∧
    (BestAnchorScoreStream.init_context env0 15 (pipeline_two (-30)) 1
      (BestAnchorScoreStream.init_context env0 15 (pipeline_two (-30)) 0 ctx0).2).2.min_score
      = 2147483647 := by
  decide

/-- C16: whenever `BestAnchorScoreStream::init_context` accepts an item, it leaves
`context.min_score = max(max(target_pair_score - o_optimal, a_worst), score_limit)`
with `target_pair_score = min(compute_target_score(best, a_worst, o_worst) + 1,
a_optimal + o_optimal)` (in `int32` arithmetic); hence `min_score >= a_worst` and
`min_score >= score_limit`. -/
theorem anchor_threshold_policy (E : Env) (m_band_len : Nat) (P : PipelineState) (i : Nat)
    (context : AlignmentContext BestSink) :
    let hit := P.hits (P.idx_queue i)
    let a_len := range_len (P.reads_get_range hit.read_id)
    let o_len := range_len (P.reads_o_get_range hit.read_id)
    let target_pair_score :=
      min (wrap32 (E.compute_target_score (P.best_paired hit.read_id)
          (P.min_score a_len) (P.min_score o_len) + 1))
        (wrap32 (P.perfect_score a_len + P.perfect_score o_len))
    let r := BestAnchorScoreStream.init_context E m_band_len P i context
    r.1 = true →
      r.2.min_score = max (max (wrap32 (target_pair_score - P.perfect_score o_len))
          (P.min_score a_len)) P.score_limit ∧
      r.2.min_score ≥ P.min_score a_len ∧ r.2.min_score ≥ P.score_limit := by
  intro hit a_len o_len target_pair_score r hacc
  have hms : r.2.min_score = max (max (wrap32 (target_pair_score - P.perfect_score o_len))
      (P.min_score a_len)) P.score_limit := by
    simp only [r, BestAnchorScoreStream.init_context, nvbio.bowtie2.cuda.target_pair_score,
      Bool.not_eq_true'] at hacc ⊢
    rw [hacc]
    rfl
  refine ⟨hms, ?_, ?_⟩
  · rw [hms]; exact le_trans (le_max_right _ _) (le_max_left _ _)
  · rw [hms]; exact le_max_right _ _

/-- C16 at an accepted item: threshold -30 for worst score -30 and score floor -30. -/
theorem anchor_threshold_policy_witness :
    (BestAnchorScoreStream.init_context env0 15 (pipeline0 (hit_at 100 0) (-30)) 0 ctx0).1
      = true ∧
    (BestAnchorScoreStream.init_context env0 15 (pipeline0 (hit_at 100 0) (-30)) 0
      ctx0).2.min_score = -30 :=
  ⟨by decide,
   ((anchor_threshold_policy env0 15 (pipeline0 (hit_at 100 0) (-30)) 0 ctx0)
      (by decide)).1.trans (by decide)⟩

/-- C17: for every item, on every return path, `BestOppositeScoreStream::init_context`
leaves `context.min_score = max(max(target_pair_score - anchor_score, o_worst),
score_limit)` with `target_pair_score = min(compute_target_score(best, a_worst,
o_worst) + 1, a_optimal + o_optimal)` and `anchor_score = hit.score` (in `int32`
arithmetic); hence `min_score >= o_worst` and `min_score >= score_limit`. -/
theorem opposite_threshold_policy {σ : Type} (E : Env) (S : SinkOps σ)
    (DP_REPORT_MULTIPLE : Bool) (P : PipelineState) (m_params : ParamsPOD) (i : Nat)
    (context : AlignmentContext σ) :
    let hit := P.hits (P.idx_queue (P.opposite_queue i))
    let a_len := range_len (P.reads_get_range hit.read_id)
    let o_len := range_len (P.reads_o_get_range hit.read_id)
    let target_pair_score :=
      min (wrap32 (E.compute_target_score (P.best_paired hit.read_id)
          (P.min_score a_len) (P.min_score o_len) + 1))
        (wrap32 (P.perfect_score a_len + P.perfect_score o_len))
    let anchor_score := hit.score
    let r := BestOppositeScoreStream.init_context E S DP_REPORT_MULTIPLE P m_params i context
    r.2.min_score = max (max (wrap32 (target_pair_score - anchor_score))
        (P.min_score o_len)) P.score_limit ∧
    r.2.min_score ≥ P.min_score o_len ∧ r.2.min_score ≥ P.score_limit := by
  intro hit a_len o_len target_pair_score anchor_score r
  have hms : r.2.min_score = max (max (wrap32 (target_pair_score - anchor_score))
      (P.min_score o_len)) P.score_limit :=
    opposite_min_score_eq E S DP_REPORT_MULTIPLE P m_params i context
  refine ⟨hms, ?_, ?_⟩
  · rw [hms]; exact le_trans (le_max_right _ _) (le_max_left _ _)
  · rw [hms]; exact le_max_right _ _

/-- The window of the left framing, absent `uint32` overflow: begin
`max(0, g_pos + a_len - max_frag)`, end the overlap bound clamped to
`max(0, g_pos + a_len + o_gapped_len - min_frag)`. -/
theorem opposite_window_left (m_params : ParamsPOD) (g_pos a_len o_gapped_len : Nat)
    (h : g_pos + a_len + o_gapped_len < 4294967296) :
    opposite_window m_params true g_pos a_len o_gapped_len =
      (g_pos + a_len - m_params.max_frag_len,
        min (if m_params.pe_overlap then g_pos + a_len else g_pos)
          (g_pos + a_len + o_gapped_len - m_params.min_frag_len)) := by
  unfold opposite_window uadd usub
  simp only [↓reduceIte]
  refine Prod.ext ?_ ?_
  · simp only []
    split_ifs <;> omega
  · simp only []
    split_ifs <;> omega

/-- The window of the right framing, absent `uint32` overflow: begin the overlap bound
raised to `max(0, g_pos + min_frag - o_gapped_len)`, end `g_pos + max_frag`. -/
theorem opposite_window_right (m_params : ParamsPOD) (g_pos a_len o_gapped_len : Nat)
    (h1 : g_pos + a_len < 4294967296) (h2 : g_pos + m_params.min_frag_len < 4294967296)
    (h3 : g_pos + m_params.max_frag_len < 4294967296) (h4 : o_gapped_len < 4294967296) :
    opposite_window m_params false g_pos a_len o_gapped_len =
      (max (if m_params.pe_overlap then g_pos else g_pos + a_len)
          (g_pos + m_params.min_frag_len - o_gapped_len),
        g_pos + m_params.max_frag_len) := by
  unfold opposite_window uadd usub
  simp only [Bool.false_eq_true, ↓reduceIte]
  refine Prod.ext ?_ ?_
  · simp only []
    split_ifs <;> omega
  · simp only []
    omega

/-- C18: with `anchor_begin = hit.loc`, `anchor_end = hit.loc + a_len` and
`slack = o_len + max_text_gaps(aligner, min_score, o_len)`, for every item that passes
the threshold check and absent 32-bit overflow (`slack >= 0` and `anchor_end + slack`,
`anchor_begin + min_frag`, `anchor_begin + max_frag` below `2^32`),
`BestOppositeScoreStream::init_context` leaves, for a mate framed to the left,
`genome_begin = max(0, anchor_end - max_frag)` and `genome_end = min(pe_overlap ?
anchor_end : anchor_begin, max(0, anchor_end - min_frag + slack), genome_length)`, and
for a mate framed to the right `genome_begin = max(pe_overlap ? anchor_begin :
anchor_end, max(0, anchor_begin + min_frag - slack))` and `genome_end =
min(anchor_begin + max_frag, genome_length)`. -/
theorem opposite_window_framing {σ : Type} (E : Env) (S : SinkOps σ)
    (DP_REPORT_MULTIPLE : Bool) (P : PipelineState) (m_params : ParamsPOD) (i : Nat)
    (context : AlignmentContext σ) :
    let hit := P.hits (P.idx_queue (P.opposite_queue i))
    let a_len := range_len (P.reads_get_range hit.read_id)
    let o_len := range_len (P.reads_o_get_range hit.read_id)
    let min_score := opposite_threshold E P i
    let anchor_begin : Int := hit.loc
    let anchor_end : Int := hit.loc + a_len
    let slack : Int := o_len + E.max_text_gaps min_score o_len
    let min_frag : Int := m_params.min_frag_len
    let max_frag : Int := m_params.max_frag_len
    let o_left := (E.frame_opposite_mate m_params.pe_policy P.anchor (hit.seed_rc == 0)).1
    let r := BestOppositeScoreStream.init_context E S DP_REPORT_MULTIPLE P m_params i context
    ¬ min_score > P.perfect_score o_len →
    0 ≤ slack → anchor_end + slack < 4294967296 →
    anchor_begin + min_frag < 4294967296 → anchor_begin + max_frag < 4294967296 →
    (o_left = true →
      (r.2.genome_begin : Int) = max 0 (anchor_end - max_frag) ∧
      (r.2.genome_end : Int) =
        min (min (if m_params.pe_overlap then anchor_end else anchor_begin)
          (max 0 (anchor_end - min_frag + slack))) P.genome_length) ∧
    (o_left = false →
      (r.2.genome_begin : Int) =
        max (if m_params.pe_overlap then anchor_begin else anchor_end)
          (max 0 (anchor_begin + min_frag - slack)) ∧
      (r.2.genome_end : Int) = min (anchor_begin + max_frag) P.genome_length) := by
  intro hit a_len o_len min_score anchor_begin anchor_end slack min_frag max_frag o_left r
    hpass hs0 hs1 hmin hmax
  obtain ⟨-, hb, he, -⟩ :=
    opposite_init_of_threshold_le E S DP_REPORT_MULTIPLE P m_params i context hpass
  have hb2 : r.2.genome_begin = (opposite_frame E P m_params i).1 := hb
  have he2 : r.2.genome_end = (opposite_frame E P m_params i).2 := he
  have hog : ((uadd o_len (int_to_u32 (E.max_text_gaps min_score o_len)) : Nat) : Int)
      = slack := by
    simp only [slack, anchor_end] at hs0 hs1 ⊢
    unfold uadd int_to_u32
    omega
  have hframe : opposite_frame E P m_params i =
      ((opposite_window m_params o_left hit.loc a_len
          (uadd o_len (int_to_u32 (E.max_text_gaps min_score o_len)))).1,
        min (opposite_window m_params o_left hit.loc a_len
          (uadd o_len (int_to_u32 (E.max_text_gaps min_score o_len)))).2 P.genome_length) := rfl
  rw [hb2, he2, hframe]
  simp only [anchor_begin, anchor_end, slack, min_frag, max_frag] at hs0 hs1 hmin hmax hog ⊢
  generalize uadd o_len (int_to_u32 (E.max_text_gaps min_score o_len)) = og at hog ⊢
  refine ⟨fun hl => ?_, fun hl => ?_⟩
  · rw [hl, opposite_window_left m_params hit.loc a_len og (by omega)]
    simp only []
    constructor
    · omega
    · split_ifs <;> omega
  · rw [hl, opposite_window_right m_params hit.loc a_len og (by omega) (by omega) (by omega)
      (by omega)]
    simp only []
    constructor
    · split_ifs <;> omega
    · omega

/-- C18 at two items with 50-base mates and no reference gaps: a hit at 5100 framed to
the left with `max_frag = 150`, no overlap, gets the window `[5000, 5100)`; a hit at
100 framed to the right with `max_frag = 500`, overlap allowed, gets `[100, 600)`. -/
theorem opposite_window_framing_witness :
    ((env_left.frame_opposite_mate 0 0 ((0 : Nat) == 0)).1 = true ∧
      ((BestOppositeScoreStream.init_context env_left best_sink_ops false
        (pipeline0 (hit_at 5100 0) (-30)) (params0 150 false) 0 ctx0).2.genome_begin : Int)
        = 5000 ∧
      ((BestOppositeScoreStream.init_context env_left best_sink_ops false
        (pipeline0 (hit_at 5100 0) (-30)) (params0 150 false) 0 ctx0).2.genome_end : Int)
        = 5100) ∧
    ((env0.frame_opposite_mate 0 0 ((0 : Nat) == 0)).1 = false ∧
      ((BestOppositeScoreStream.init_context env0 best_sink_ops false
        (pipeline0 (hit_at 100 0) (-30)) (params0 500 true) 0 ctx0).2.genome_begin : Int)
        = 100 ∧
      ((BestOppositeScoreStream.init_context env0 best_sink_ops false
        (pipeline0 (hit_at 100 0) (-30)) (params0 500 true) 0 ctx0).2.genome_end : Int)
        = 600) :=
  ⟨⟨by decide,
    (((opposite_window_framing env_left best_sink_ops false
      (pipeline0 (hit_at 5100 0) (-30)) (params0 150 false) 0 ctx0)
      (by decide) (by decide) (by decide) (by decide) (by decide)).1 (by decide)).1.trans
      (by decide),
    (((opposite_window_framing env_left best_sink_ops false
      (pipeline0 (hit_at 5100 0) (-30)) (params0 150 false) 0 ctx0)
      (by decide) (by decide) (by decide) (by decide) (by decide)).1 (by decide)).2.trans
      (by decide)⟩,
   ⟨by decide,
    (((opposite_window_framing env0 best_sink_ops false
      (pipeline0 (hit_at 100 0) (-30)) (params0 500 true) 0 ctx0)
      (by decide) (by decide) (by decide) (by decide) (by decide)).2 (by decide)).1.trans
      (by decide),
    (((opposite_window_framing env0 best_sink_ops false
      (pipeline0 (hit_at 100 0) (-30)) (params0 500 true) 0 ctx0)
      (by decide) (by decide) (by decide) (by decide) (by decide)).2 (by decide)).2.trans
      (by decide)⟩⟩

/-- The framed window, before the clamp to the genome, is never longer than
`max_frag_len` when the anchor end `g_pos + a_len` does not overflow. -/
theorem opposite_window_end_le (m_params : ParamsPOD) (o_left : Bool)
    (g_pos a_len o_gapped_len : Nat) (h : g_pos + a_len < 4294967296) :
    (opposite_window m_params o_left g_pos a_len o_gapped_len).2 ≤
      (opposite_window m_params o_left g_pos a_len o_gapped_len).1 + m_params.max_frag_len := by
  unfold opposite_window uadd usub
  cases o_left
  · simp only [Bool.false_eq_true, ↓reduceIte]
    split_ifs <;> omega
  · simp only [↓reduceIte]
    split_ifs <;> omega

/-- C19: for every item for which `BestOppositeScoreStream::init_context` computes a
window (the threshold check passed), absent 32-bit overflow of the anchor end
`hit.loc + a_len`, the window satisfies
`genome_end <= genome_begin + max_frag_len = genome_begin + max_text_length()`, for the
left and the right framing, with or without overlap; so a window with
`genome_begin <= genome_end` has length at most `max_text_length()`. -/
theorem opposite_window_within_max_text_length {σ : Type} (E : Env) (S : SinkOps σ)
    (DP_REPORT_MULTIPLE : Bool) (P : PipelineState) (m_params : ParamsPOD) (i : Nat)
    (context : AlignmentContext σ) :
    let hit := P.hits (P.idx_queue (P.opposite_queue i))
    let a_len := range_len (P.reads_get_range hit.read_id)
    let o_len := range_len (P.reads_o_get_range hit.read_id)
    let r := BestOppositeScoreStream.init_context E S DP_REPORT_MULTIPLE P m_params i context
    ¬ opposite_threshold E P i > P.perfect_score o_len →
    hit.loc + a_len < 4294967296 →
    r.2.genome_end ≤ r.2.genome_begin + BestOppositeScoreStream.max_text_length m_params ∧
    r.2.genome_end ≤ r.2.genome_begin + m_params.max_frag_len ∧
    (r.2.genome_begin ≤ r.2.genome_end →
      r.2.genome_end - r.2.genome_begin ≤ BestOppositeScoreStream.max_text_length m_params) := by
  intro hit a_len o_len r hpass hov
  obtain ⟨-, hb, he, -⟩ :=
    opposite_init_of_threshold_le E S DP_REPORT_MULTIPLE P m_params i context hpass
  have hb2 : r.2.genome_begin = (opposite_frame E P m_params i).1 := hb
  have he2 : r.2.genome_end = (opposite_frame E P m_params i).2 := he
  have hw := opposite_window_end_le m_params
    (E.frame_opposite_mate m_params.pe_policy P.anchor (hit.seed_rc == 0)).1 hit.loc a_len
    (uadd o_len (int_to_u32 (E.max_text_gaps (opposite_threshold E P i) o_len))) hov
  have hle : (opposite_frame E P m_params i).2 ≤
      (opposite_frame E P m_params i).1 + m_params.max_frag_len :=
    le_trans (min_le_left _ _) hw
  rw [hb2, he2]
  unfold BestOppositeScoreStream.max_text_length
  exact ⟨hle, hle, fun _ => by omega⟩

/-- C19 at a hit at 5100 framed to the left with `max_frag = 150`: the window
`[5000, 5100)` has length 100, at most 150. -/
theorem opposite_window_within_max_text_length_witness :
    (BestOppositeScoreStream.init_context env_left best_sink_ops false
      (pipeline0 (hit_at 5100 0) (-30)) (params0 150 false) 0 ctx0).2.genome_begin ≤
    (BestOppositeScoreStream.init_context env_left best_sink_ops false
      (pipeline0 (hit_at 5100 0) (-30)) (params0 150 false) 0 ctx0).2.genome_end ∧
    (BestOppositeScoreStream.init_context env_left best_sink_ops false
      (pipeline0 (hit_at 5100 0) (-30)) (params0 150 false) 0 ctx0).2.genome_end -
    (BestOppositeScoreStream.init_context env_left best_sink_ops false
      (pipeline0 (hit_at 5100 0) (-30)) (params0 150 false) 0 ctx0).2.genome_begin ≤
      BestOppositeScoreStream.max_text_length (params0 150 false) :=
  ⟨by decide,
   ((opposite_window_within_max_text_length env_left best_sink_ops false
      (pipeline0 (hit_at 5100 0) (-30)) (params0 150 false) 0 ctx0)
      (by decide) (by decide)).2.2 (by decide)⟩

/-- The window of the banded streams, absent `uint32` overflow. -/
theorem banded_window_props (band g_pos read_len genome_length : Nat)
    (h1 : g_pos < genome_length) (h2 : g_pos + band + read_len < 4294967296) :
    ((if g_pos > band / 2 then usub g_pos (band / 2) else 0 : Nat) : Int) =
      max 0 ((g_pos : Int) - ((band / 2 : Nat) : Int)) ∧
    min (uadd (uadd (if g_pos > band / 2 then usub g_pos (band / 2) else 0) band) read_len)
        genome_length =
      min ((if g_pos > band / 2 then usub g_pos (band / 2) else 0) + band + read_len)
        genome_length ∧
    (if g_pos > band / 2 then usub g_pos (band / 2) else 0) ≤ g_pos ∧
    min (uadd (uadd (if g_pos > band / 2 then usub g_pos (band / 2) else 0) band) read_len)
        genome_length ≤ genome_length ∧
    min (uadd (uadd (if g_pos > band / 2 then usub g_pos (band / 2) else 0) band) read_len)
        genome_length - (if g_pos > band / 2 then usub g_pos (band / 2) else 0)
      ≤ read_len + band ∧
    (0 < band + read_len →
      (if g_pos > band / 2 then usub g_pos (band / 2) else 0) <
        min (uadd (uadd (if g_pos > band / 2 then usub g_pos (band / 2) else 0) band) read_len)
          genome_length) := by
  unfold uadd usub
  refine ⟨?_, ?_, ?_, ?_, ?_, ?_⟩
  · split_ifs <;> omega
  · split_ifs <;> omega
  · split_ifs <;> omega
  · exact min_le_right _ _
  · split_ifs <;> omega
  · intro hpos
    split_ifs <;> omega

/-- The band length the dispatchers give to a stream is one of the four buckets. -/
theorem static_band_len_pos (band_len : Nat) : 0 < static_band_len band_len := by
  unfold static_band_len
  split_ifs <;> omega

/-- C20: for every item of the Best, the Anchor and the All stream whose hit location
is below `genome_length` and whose read length is at most the maximum read length of
the pipeline, absent 32-bit overflow (`hit.loc + band + read_len` and
`max read length + band` below `2^32`), `init_context` sets
`genome_begin = max(0, hit.loc - floor(band/2))` and
`genome_end = min(genome_begin + band + read_len, genome_length)`, so that
`genome_begin <= hit.loc`, `genome_end <= genome_length`,
`genome_end - genome_begin <= read_len + band <= max_text_length()`, and
`genome_begin < genome_end` as soon as `band + read_len > 0`, which holds for every
band length the dispatchers pass (a bucket `static_band_len`, at least 3). -/
theorem banded_window_well_formed (E : Env) (m_band_len : Nat) (P : PipelineState)
    (Q : AllMappingPipelineState) (i : Nat) (context : AlignmentContext BestSink) :
    (let hit := P.hits (P.idx_queue i)
     let read_len := range_len (P.reads_get_range hit.read_id)
     hit.loc < P.genome_length → read_len ≤ P.reads_max_read_len →
     hit.loc + m_band_len + read_len < 4294967296 →
     P.reads_max_read_len + m_band_len < 4294967296 →
     (∀ r, r = BestScoreStream.init_context E m_band_len P i context ∨
          r = BestAnchorScoreStream.init_context E m_band_len P i context →
       (r.2.genome_begin : Int) = max 0 ((hit.loc : Int) - ((m_band_len / 2 : Nat) : Int)) ∧
       r.2.genome_end = min (r.2.genome_begin + m_band_len + read_len) P.genome_length ∧
       r.2.genome_begin ≤ hit.loc ∧ r.2.genome_end ≤ P.genome_length ∧
       r.2.genome_end - r.2.genome_begin ≤ read_len + m_band_len ∧
       (0 < m_band_len + read_len → r.2.genome_begin < r.2.genome_end)) ∧
     read_len + m_band_len ≤ BestScoreStream.max_text_length m_band_len P ∧
     read_len + m_band_len ≤ BestAnchorScoreStream.max_text_length m_band_len P) ∧
    (let hit := Q.hits (Q.idx_queue i)
     let read_len := range_len (Q.reads_get_range hit.read_id)
     let r := AllScoreStream.init_context E m_band_len Q i context
     hit.loc < Q.genome_length → read_len ≤ Q.reads_max_sequence_len →
     hit.loc + m_band_len + read_len < 4294967296 →
     Q.reads_max_sequence_len + m_band_len < 4294967296 →
     (r.2.genome_begin : Int) = max 0 ((hit.loc : Int) - ((m_band_len / 2 : Nat) : Int)) ∧
     r.2.genome_end = min (r.2.genome_begin + m_band_len + read_len) Q.genome_length ∧
     r.2.genome_begin ≤ hit.loc ∧ r.2.genome_end ≤ Q.genome_length ∧
     r.2.genome_end - r.2.genome_begin ≤ read_len + m_band_len ∧
     (0 < m_band_len + read_len → r.2.genome_begin < r.2.genome_end) ∧
     read_len + m_band_len ≤ AllScoreStream.max_text_length m_band_len Q) ∧
    (∀ band_len, 0 < static_band_len band_len) := by
  refine ⟨?_, ?_, static_band_len_pos⟩
  · intro hit read_len h1 h2 h3 h4
    have hw := banded_window_props m_band_len hit.loc read_len P.genome_length h1 h3
    refine ⟨?_, ?_, ?_⟩
    · rintro r (rfl | rfl)
      · exact hw
      · exact hw
    · unfold BestScoreStream.max_text_length uadd
      omega
    · unfold BestAnchorScoreStream.max_text_length uadd
      omega
  · intro hit read_len r h1 h2 h3 h4
    have hw := banded_window_props m_band_len hit.loc read_len Q.genome_length h1 h3
    obtain ⟨w1, w2, w3, w4, w5, w6⟩ := hw
    refine ⟨w1, w2, w3, w4, w5, w6, ?_⟩
    unfold AllScoreStream.max_text_length uadd
    omega

/-- C20 at a hit at location 100 of a 50-base read with band 15: the Best and the All
stream frame the window `[93, 158)`, inside the genome of 10000 bases. -/
theorem banded_window_well_formed_witness :
    ((BestScoreStream.init_context env0 15 (pipeline0 (hit_at 100 0) (-30)) 0 ctx0).2.genome_begin
        < (BestScoreStream.init_context env0 15 (pipeline0 (hit_at 100 0) (-30)) 0
          ctx0).2.genome_end ∧
      (BestScoreStream.init_context env0 15 (pipeline0 (hit_at 100 0) (-30)) 0
        ctx0).2.genome_begin = 93 ∧
      (BestScoreStream.init_context env0 15 (pipeline0 (hit_at 100 0) (-30)) 0
        ctx0).2.genome_end = 158) ∧
    ((AllScoreStream.init_context env0 15 all_pipeline0 0 ctx0).2.genome_begin <
      (AllScoreStream.init_context env0 15 all_pipeline0 0 ctx0).2.genome_end ∧
      (AllScoreStream.init_context env0 15 all_pipeline0 0 ctx0).2.genome_end ≤
        all_pipeline0.genome_length) :=
  ⟨⟨(((banded_window_well_formed env0 15 (pipeline0 (hit_at 100 0) (-30)) all_pipeline0 0
        ctx0).1 (by decide) (by decide) (by decide) (by decide)).1
        (BestScoreStream.init_context env0 15 (pipeline0 (hit_at 100 0) (-30)) 0 ctx0)
        (Or.inl rfl)).2.2.2.2.2 (by decide),
    by decide, by decide⟩,
   ((banded_window_well_formed env0 15 (pipeline0 (hit_at 100 0) (-30)) all_pipeline0 0
      ctx0).2.1 (by decide) (by decide) (by decide) (by decide)).2.2.2.2.2.1 (by decide),
   ((banded_window_well_formed env0 15 (pipeline0 (hit_at 100 0) (-30)) all_pipeline0 0
      ctx0).2.1 (by decide) (by decide) (by decide) (by decide)).2.2.2.1⟩

/-- The three dispatchers are instances of the code they share. -/
theorem dispatchers_eq_banded_dispatch (E : Env) (X : Executor) (is_local : Bool)
    (band_len : Nat) (P : PipelineState) (Q : AllMappingPipelineState)
    (offset B c : Nat) :
    banded_score_best E X is_local band_len P =
      banded_dispatch (fun K m => BestScoreStream.enact E X is_local K m P) band_len ∧
    banded_anchor_score_best E X is_local band_len P =
      banded_dispatch (fun K m => BestAnchorScoreStream.enact E X is_local K m P) band_len ∧
    banded_score_all E X is_local band_len Q offset B c =
      banded_dispatch (fun K m => AllScoreStream.enact E X is_local K m offset B Q c
        Q.hits_queue_size) band_len :=
  ⟨rfl, rfl, rfl⟩

/-- The shared dispatcher code runs the kernel of width `static_band_len` on a stream of
band length `static_band_len`. -/
theorem banded_dispatch_eq {α : Type} (enact : Nat → Nat → α) (band_len : Nat) :
    banded_dispatch enact band_len =
      enact (static_band_len band_len) (static_band_len band_len) := by
  unfold banded_dispatch static_band_len
  simp only []
  split_ifs <;> rfl

/-- C21: for every requested band length `b`, the band length that
`banded_score_best`, `banded_anchor_score_best` and `banded_score_all` pass to the
stream is 3 if `b < 4`, 7 if `4 <= b < 8`, 15 if `8 <= b < 16` and 31 otherwise; for
`b <= 31` it is the smallest element of `{3, 7, 15, 31}` that is at least `b`, every
`b >= 16` maps to 31, and 10, 3 and 20 map to 15, 3 and 31. -/
theorem band_bucket_selection (E : Env) (X : Executor) (is_local : Bool) (b : Nat)
    (P : PipelineState) (Q : AllMappingPipelineState) (offset B c : Nat) :
    (banded_score_best E X is_local b P =
        banded_dispatch (fun K m => BestScoreStream.enact E X is_local K m P) b ∧
      banded_anchor_score_best E X is_local b P =
        banded_dispatch (fun K m => BestAnchorScoreStream.enact E X is_local K m P) b ∧
      banded_score_all E X is_local b Q offset B c =
        banded_dispatch (fun K m => AllScoreStream.enact E X is_local K m offset B Q c
          Q.hits_queue_size) b) ∧
    (∀ (α : Type) (enact : Nat → Nat → α), ∃ K, banded_dispatch enact b =
      enact K (if b < 4 then 3 else if b < 8 then 7 else if b < 16 then 15 else 31)) ∧
    (b < 4 → static_band_len b = 3) ∧
    (4 ≤ b → b < 8 → static_band_len b = 7) ∧
    (8 ≤ b → b < 16 → static_band_len b = 15) ∧
    (16 ≤ b → static_band_len b = 31) ∧
    static_band_len b ∈ [3, 7, 15, 31] ∧
    (b ≤ 31 → b ≤ static_band_len b ∧
      ∀ k ∈ [3, 7, 15, 31], b ≤ k → static_band_len b ≤ k) ∧
    static_band_len 10 = 15 ∧ static_band_len 3 = 3 ∧ static_band_len 20 = 31 := by
  refine ⟨dispatchers_eq_banded_dispatch E X is_local b P Q offset B c,
    fun α enact => ⟨static_band_len b, banded_dispatch_eq enact b⟩,
    ?_, ?_, ?_, ?_, ?_, ?_, by decide, by decide, by decide⟩
  · intro h; simp [static_band_len, h]
  · intro h1 h2; unfold static_band_len; split_ifs <;> omega
  · intro h1 h2; unfold static_band_len; split_ifs <;> omega
  · intro h; unfold static_band_len; split_ifs <;> omega
  · unfold static_band_len
    split_ifs <;> decide
  · intro h
    refine ⟨?_, ?_⟩
    · unfold static_band_len; split_ifs <;> omega
    · intro k hk hbk
      simp only [List.mem_cons, List.mem_singleton, List.not_mem_nil, or_false] at hk
      unfold static_band_len
      rcases hk with rfl | rfl | rfl | rfl <;> split_ifs <;> omega

/-- C21 at the requested band lengths 10, 3 and 20 of the spec and at 40. -/
theorem band_bucket_selection_witness :
    static_band_len 10 = 15 ∧ static_band_len 3 = 3 ∧ static_band_len 20 = 31 ∧
    static_band_len 40 = 31 ∧
    (10 ≤ static_band_len 10 ∧ ∀ k ∈ [3, 7, 15, 31], 10 ≤ k → static_band_len 10 ≤ k) :=
  ⟨(band_bucket_selection env0 executor0 false 10 (pipeline0 (hit_at 100 0) (-30))
      all_pipeline0 0 10 0).2.2.2.2.1 (by decide) (by decide),
   (band_bucket_selection env0 executor0 false 3 (pipeline0 (hit_at 100 0) (-30))
      all_pipeline0 0 10 0).2.2.1 (by decide),
   (band_bucket_selection env0 executor0 false 20 (pipeline0 (hit_at 100 0) (-30))
      all_pipeline0 0 10 0).2.2.2.2.2.1 (by decide),
   (band_bucket_selection env0 executor0 false 40 (pipeline0 (hit_at 100 0) (-30))
      all_pipeline0 0 10 0).2.2.2.2.2.1 (by decide),
   (band_bucket_selection env0 executor0 false 10 (pipeline0 (hit_at 100 0) (-30))
      all_pipeline0 0 10 0).2.2.2.2.2.2.2.1 (by decide)⟩

/-- C26: for every requested band length `b`, in `banded_score_best`,
`banded_anchor_score_best` and `banded_score_all` the band length given to the
constructor of the stream (`static_band_len`) equals the `BAND_LEN` template
parameter of the `BatchedBandedAlignmentScore` kernel that the if-chain selects. -/
theorem dispatcher_band_matches_kernel (E : Env) (X : Executor) (is_local : Bool) (b : Nat)
    (P : PipelineState) (Q : AllMappingPipelineState) (offset B c : Nat) :
    (∀ (α : Type) (enact : Nat → Nat → α),
      banded_dispatch enact b = enact (static_band_len b) (static_band_len b)) ∧
    (banded_dispatch (fun K m => (K, m)) b).1 = (banded_dispatch (fun K m => (K, m)) b).2 ∧
    (banded_dispatch (fun K m => (K, m)) b).2 = static_band_len b ∧
    banded_score_best E X is_local b P =
      BestScoreStream.enact E X is_local (static_band_len b) (static_band_len b) P ∧
    banded_anchor_score_best E X is_local b P =
      BestAnchorScoreStream.enact E X is_local (static_band_len b) (static_band_len b) P ∧
    banded_score_all E X is_local b Q offset B c =
      AllScoreStream.enact E X is_local (static_band_len b) (static_band_len b) offset B Q c
        Q.hits_queue_size := by
  obtain ⟨h1, h2, h3⟩ := dispatchers_eq_banded_dispatch E X is_local b P Q offset B c
  refine ⟨fun α enact => banded_dispatch_eq enact b, ?_, ?_, ?_, ?_, ?_⟩
  · rw [banded_dispatch_eq]
  · rw [banded_dispatch_eq]
  · rw [h1, banded_dispatch_eq]
  · rw [h2, banded_dispatch_eq]
  · rw [h3, banded_dispatch_eq]

/-- C22: for every item, `AllScoreStream::output` leaves every hit record unchanged; if
`sink.score >= context.min_score` it writes the read id `hit.read_id` and the
alignment record `(hit.loc, 0, sink.score, hit.seed.rc)` at one position of the ring
buffer, leaves every other position of both arrays unchanged and increments the
counter by one (in `uint32`); if `sink.score < context.min_score` it leaves the two
arrays and the counter unchanged. -/
theorem all_output_frame (offset B : Nat) (P : AllMappingPipelineState) (c i : Nat)
    (context : AlignmentContext BestSink) :
    let r := AllScoreStream.output offset B P c i context
    let hit := P.hits context.idx
    let pos := AllScoreStream.buffer_index offset B c
    r.1.hits = P.hits ∧
    (context.sink.score ≥ context.min_score →
      r.1.buffer_read_info pos = hit.read_id ∧
      r.1.buffer_alignments pos =
        { m_align := hit.loc, m_ed := 0, score := context.sink.score, m_rc := hit.seed_rc,
          m_mate := 0 } ∧
      (∀ k, k ≠ pos → r.1.buffer_read_info k = P.buffer_read_info k ∧
        r.1.buffer_alignments k = P.buffer_alignments k) ∧
      r.2 = (c + 1) % 4294967296) ∧
    (context.sink.score < context.min_score →
      r.1.buffer_read_info = P.buffer_read_info ∧
      r.1.buffer_alignments = P.buffer_alignments ∧ r.2 = c) := by
  intro r hit pos
  refine ⟨(all_output_same_inputs offset B P c i context).2.1, fun h => ?_, fun h => ?_⟩
  · obtain ⟨h2, -, hr, ha⟩ := all_output_accepted offset B P c i context h
    have hr2 : r.1.buffer_read_info = Function.update P.buffer_read_info pos hit.read_id := hr
    have ha2 : r.1.buffer_alignments = Function.update P.buffer_alignments pos
        (Alignment.make hit.loc 0 context.sink.score hit.seed_rc) := ha
    refine ⟨?_, ?_, fun k hk => ⟨?_, ?_⟩, h2⟩
    · rw [hr2, Function.update_same]
    · rw [ha2, Function.update_same]
      rfl
    · rw [hr2, Function.update_noteq hk]
    · rw [ha2, Function.update_noteq hk]
  · have hnot : ¬ context.sink.score ≥ context.min_score := not_le.mpr h
    have hP : r = (P, c) := by
      simp only [r, AllScoreStream.output]
      rw [if_neg hnot]
    rw [hP]
    exact ⟨rfl, rfl, rfl⟩

/-- C22 at item 3 of `all_pipeline0` with counter 3, offset 0 and capacity 10: a found
score of -3 is appended at position 3; a found score of -40 changes nothing. -/
theorem all_output_frame_witness :
    ((AllScoreStream.output 0 10 all_pipeline0 3 3 (all_item 3)).1.buffer_read_info
        (AllScoreStream.buffer_index 0 10 3) = 3 ∧
      (AllScoreStream.output 0 10 all_pipeline0 3 3 (all_item 3)).2 = 4) ∧
    ((AllScoreStream.output 0 10 all_pipeline0 3 3
        { all_item 3 with sink := sink_of (-40) 3 }).1.buffer_read_info
        = all_pipeline0.buffer_read_info ∧
      (AllScoreStream.output 0 10 all_pipeline0 3 3
        { all_item 3 with sink := sink_of (-40) 3 }).2 = 3) :=
  ⟨⟨((all_output_frame 0 10 all_pipeline0 3 3 (all_item 3)).2.1 (by decide)).1.trans
      (by decide),
    ((all_output_frame 0 10 all_pipeline0 3 3 (all_item 3)).2.1 (by decide)).2.2.2.trans
      (by decide)⟩,
   ((all_output_frame 0 10 all_pipeline0 3 3
      { all_item 3 with sink := sink_of (-40) 3 }).2.2 (by decide)).1,
   ((all_output_frame 0 10 all_pipeline0 3 3
      { all_item 3 with sink := sink_of (-40) 3 }).2.2 (by decide)).2.2⟩

/-- C23: `BestScoreStream::output` and `BestAnchorScoreStream::output` change only the
`score` and `sink` fields of the hit at `context.idx`, and
`BestOppositeScoreStream::output` (either build) changes only its `opposite_score`,
`opposite_score2`, `opposite_loc`, `opposite_sink` and `opposite_sink2` fields: the
read id, strand and location of that hit (and for Opposite its score and sink), every
other hit and every other field of the pipeline state are unchanged. -/
theorem output_frame (E : Env) (best2 : BestColumnSink → Nat → Nat × Nat)
    (P : PipelineState) (i : Nat) (c : AlignmentContext BestSink)
    (cm : AlignmentContext BestColumnSink) :
    (∀ Q, Q = BestScoreStream.output E P i c ∨ Q = BestAnchorScoreStream.output E P i c →
      (∃ score sink, Q = P.with_hit c.idx { P.hits c.idx with score := score, sink := sink }) ∧
      (∀ k, k ≠ c.idx → Q.hits k = P.hits k) ∧
      (Q.hits c.idx).read_id = (P.hits c.idx).read_id ∧
      (Q.hits c.idx).seed_rc = (P.hits c.idx).seed_rc ∧
      (Q.hits c.idx).loc = (P.hits c.idx).loc ∧
      (Q.hits c.idx).opposite_loc = (P.hits c.idx).opposite_loc ∧
      (Q.hits c.idx).opposite_score = (P.hits c.idx).opposite_score ∧
      (Q.hits c.idx).opposite_sink = (P.hits c.idx).opposite_sink ∧
      (Q.hits c.idx).opposite_score2 = (P.hits c.idx).opposite_score2 ∧
      (Q.hits c.idx).opposite_sink2 = (P.hits c.idx).opposite_sink2) ∧
    (∀ (idx : Nat) (Q : PipelineState),
      (idx = c.idx ∧ Q = BestOppositeScoreStream.output_single E P i c) ∨
      (idx = cm.idx ∧ Q = BestOppositeScoreStream.output_multiple E best2 P i cm) →
      (∃ s1 s2 l k1 k2, Q = P.with_hit idx { P.hits idx with
        opposite_score := s1, opposite_score2 := s2, opposite_loc := l,
        opposite_sink := k1, opposite_sink2 := k2 }) ∧
      (∀ k, k ≠ idx → Q.hits k = P.hits k) ∧
      (Q.hits idx).read_id = (P.hits idx).read_id ∧
      (Q.hits idx).seed_rc = (P.hits idx).seed_rc ∧
      (Q.hits idx).loc = (P.hits idx).loc ∧
      (Q.hits idx).score = (P.hits idx).score ∧
      (Q.hits idx).sink = (P.hits idx).sink) := by
  refine ⟨?_, ?_⟩
  · rintro Q (rfl | rfl)
    · refine ⟨⟨_, _, rfl⟩, fun k hk => ?_, ?_, ?_, ?_, ?_, ?_, ?_, ?_, ?_⟩ <;>
        simp [BestScoreStream.output, Function.update_noteq, *]
    · refine ⟨⟨_, _, rfl⟩, fun k hk => ?_, ?_, ?_, ?_, ?_, ?_, ?_, ?_, ?_⟩ <;>
        simp [BestAnchorScoreStream.output, Function.update_noteq, *]
  · rintro idx Q (⟨rfl, rfl⟩ | ⟨rfl, rfl⟩)
    · refine ⟨⟨_, _, _, _, _, rfl⟩, fun k hk => ?_, ?_, ?_, ?_, ?_, ?_⟩ <;>
        simp [BestOppositeScoreStream.output_single, Function.update_noteq, *]
    · refine ⟨⟨_, _, _, _, _, rfl⟩, fun k hk => ?_, ?_, ?_, ?_, ?_, ?_⟩ <;>
        simp [BestOppositeScoreStream.output_multiple, Function.update_noteq, *]

/-- C23 at hit 1 of `pipeline_two`: the Best output on the context of item 0 leaves
hit 1 as it was. -/
theorem output_frame_witness :
    (1 ≠ (BestScoreStream.scored_context env0 15 (pipeline_two (-30)) 0 ctx0
      (sink_of (-5) 3)).idx) ∧
    (BestScoreStream.output env0 (pipeline_two (-30)) 0
      (BestScoreStream.scored_context env0 15 (pipeline_two (-30)) 0 ctx0
        (sink_of (-5) 3))).hits 1 = (pipeline_two (-30)).hits 1 ∧
    ((BestScoreStream.output env0 (pipeline_two (-30)) 0
      (BestScoreStream.scored_context env0 15 (pipeline_two (-30)) 0 ctx0
        (sink_of (-5) 3))).hits 0).score = -5 :=
  ⟨by decide,
   ((output_frame env0 (fun _ _ => (0, 1)) (pipeline_two (-30)) 0
      (BestScoreStream.scored_context env0 15 (pipeline_two (-30)) 0 ctx0 (sink_of (-5) 3))
      { ctx0 with sink := { scores := fun _ => 0, sinks := fun _ => { x := 0, y := 0 } } }).1
      _ (Or.inl rfl)).2.1 1 (by decide),
   by decide⟩

/-- C24: for every pipeline state and item `i`, `BestScoreStream::init_context`
returns accept, sets `context.idx = idx_queue[i]`, and sets `context.min_score` to the
maximum of the score of `best_alignments[read_id + best_stride]`, the recorded
second-best alignment of the read of that hit, and `score_limit`. -/
theorem best_init_context_accepts (E : Env) (m_band_len : Nat) (P : PipelineState) (i : Nat)
    (context : AlignmentContext BestSink) :
    let r := BestScoreStream.init_context E m_band_len P i context
    let hit := P.hits (P.idx_queue i)
    r.1 = true ∧ r.2.idx = P.idx_queue i ∧ r.2.read_id = hit.read_id ∧
    r.2.min_score =
      max (P.best_alignments ((hit.read_id + P.best_stride) % 4294967296)).score
        P.score_limit ∧
    r.2.min_score ≥ P.score_limit := by
  intro r hit
  refine ⟨rfl, rfl, rfl, rfl, ?_⟩
  exact le_max_right _ _

/-- C25: for every item of the Anchor stream, if `(pipeline.anchor, hit.seed.rc,
hit.loc)` equals the `(m_mate, m_rc, m_align)` of one of the four recorded entries
`m_a1`, `m_o1`, `m_a2`, `m_o2` of the read, `BestAnchorScoreStream::init_context`
returns skip and sets `context.min_score` to the maximum `int32` value. -/
theorem anchor_dedup_skips (E : Env) (m_band_len : Nat) (P : PipelineState) (i : Nat)
    (context : AlignmentContext BestSink) :
    let hit := P.hits (P.idx_queue i)
    let best := P.best_paired hit.read_id
    let r := BestAnchorScoreStream.init_context E m_band_len P i context
    ∀ e ∈ [best.m_a1, best.m_o1, best.m_a2, best.m_o2],
      e.m_mate = P.anchor ∧ e.m_rc = hit.seed_rc ∧ e.m_align = hit.loc →
      r.1 = false ∧ r.2.min_score = 2147483647 := by
  intro hit best r e he h
  have hv : already_visited best P.anchor hit.seed_rc hit.loc = true :=
    already_visited_of_entry best P.anchor hit.seed_rc hit.loc e he h
  simp only [r, BestAnchorScoreStream.init_context]
  rw [hv]
  simp [int32_max]

/-- C25 at item 0 of `pipeline_two`, whose hit (anchor mate 0, strand 0, location
5000) is the recorded best anchor alignment: skip with `min_score = 2147483647`. -/
theorem anchor_dedup_skips_witness :
    (((pipeline_two (-30)).best_paired 0).m_a1.m_mate = (pipeline_two (-30)).anchor ∧
      ((pipeline_two (-30)).best_paired 0).m_a1.m_rc = ((pipeline_two (-30)).hits 0).seed_rc ∧
      ((pipeline_two (-30)).best_paired 0).m_a1.m_align = ((pipeline_two (-30)).hits 0).loc) ∧
    (BestAnchorScoreStream.init_context env0 15 (pipeline_two (-30)) 0 ctx0).1 = false ∧
    (BestAnchorScoreStream.init_context env0 15 (pipeline_two (-30)) 0 ctx0).2.min_score
      = 2147483647 :=
  ⟨by decide,
   anchor_dedup_skips env0 15 (pipeline_two (-30)) 0 ctx0
     ((pipeline_two (-30)).best_paired 0).m_a1 (by decide) (by decide)⟩

/-- C27, amended: in the Anchor stream, whenever `a_worst <= a_optimal`, `score_limit <=
a_optimal` and the `int32` operations of the formula do not overflow (the sums `T + 1`
and `a_optimal + o_optimal` and the difference of their minimum and `o_optimal` are
representable), the threshold `max(max(min(T + 1, a_optimal + o_optimal) - o_optimal,
a_worst), score_limit)` is at most `a_optimal`, for every value `T` of
`compute_target_score`; so the `min_score` of an accepted item is at most
`a_optimal`. -/
theorem anchor_threshold_reachable (E : Env) (m_band_len : Nat) (P : PipelineState) (i : Nat)
    (context : AlignmentContext BestSink) :
    let hit := P.hits (P.idx_queue i)
    let a_len := range_len (P.reads_get_range hit.read_id)
    let o_len := range_len (P.reads_o_get_range hit.read_id)
    let a_optimal := P.perfect_score a_len
    let o_optimal := P.perfect_score o_len
    let a_worst := P.min_score a_len
    let T := E.compute_target_score (P.best_paired hit.read_id) a_worst (P.min_score o_len)
    let r := BestAnchorScoreStream.init_context E m_band_len P i context
    a_worst ≤ a_optimal → P.score_limit ≤ a_optimal →
    (-2147483648 ≤ T + 1 ∧ T + 1 ≤ 2147483647) →
    (-2147483648 ≤ a_optimal + o_optimal ∧ a_optimal + o_optimal ≤ 2147483647) →
    (-2147483648 ≤ min (T + 1) (a_optimal + o_optimal) - o_optimal ∧
      min (T + 1) (a_optimal + o_optimal) - o_optimal ≤ 2147483647) →
    max (max (wrap32 (min (wrap32 (T + 1)) (wrap32 (a_optimal + o_optimal)) - o_optimal))
      a_worst) P.score_limit ≤ a_optimal ∧
    (r.1 = true → r.2.min_score ≤ a_optimal) := by
  intro hit a_len o_len a_optimal o_optimal a_worst T r hw hl hT hs hd
  have hbound : max (max (wrap32 (min (wrap32 (T + 1)) (wrap32 (a_optimal + o_optimal))
      - o_optimal)) a_worst) P.score_limit ≤ a_optimal := by
    have e1 : wrap32 (T + 1) = T + 1 := by unfold wrap32; omega
    have e2 : wrap32 (a_optimal + o_optimal) = a_optimal + o_optimal := by
      unfold wrap32; omega
    rw [e1, e2]
    have e3 : wrap32 (min (T + 1) (a_optimal + o_optimal) - o_optimal) =
        min (T + 1) (a_optimal + o_optimal) - o_optimal := by unfold wrap32; omega
    rw [e3]
    omega
  refine ⟨hbound, fun hacc => ?_⟩
  have hms : r.2.min_score = max (max (wrap32 (min (wrap32 (T + 1))
      (wrap32 (a_optimal + o_optimal)) - o_optimal)) a_worst) P.score_limit := by
    simp only [r, BestAnchorScoreStream.init_context, nvbio.bowtie2.cuda.target_pair_score,
      Bool.not_eq_true'] at hacc ⊢
    rw [hacc]
    rfl
  rw [hms]
  exact hbound

/-- C27 amended, at an end-to-end pair (perfect score 0, worst score -30, score floor -30, pair
floor `T = -60`): the threshold -30 is at most the perfect score 0. -/
theorem anchor_threshold_reachable_witness :
    (BestAnchorScoreStream.init_context env0 15 (pipeline0 (hit_at 100 0) (-30)) 0 ctx0).1
      = true ∧
    (BestAnchorScoreStream.init_context env0 15 (pipeline0 (hit_at 100 0) (-30)) 0
      ctx0).2.min_score ≤ 0 :=
  ⟨by decide,
   ((anchor_threshold_reachable env0 15 (pipeline0 (hit_at 100 0) (-30)) 0 ctx0)
      (by decide) (by decide) (by decide) (by decide) (by decide)).2 (by decide)⟩

/-- The Opposite threshold of a pipeline state whose hit of item `i` has been given the
anchor score `s`. -/
theorem opposite_threshold_with_score (E : Env) (P : PipelineState) (i : Nat) (s : Int) :
    opposite_threshold E
      (P.with_hit (P.idx_queue (P.opposite_queue i))
        { P.hits (P.idx_queue (P.opposite_queue i)) with score := s }) i =
    max (max (wrap32 (target_pair_score E
        (P.best_paired (P.hits (P.idx_queue (P.opposite_queue i))).read_id)
        (P.min_score (range_len (P.reads_get_range
          (P.hits (P.idx_queue (P.opposite_queue i))).read_id)))
        (P.min_score (range_len (P.reads_o_get_range
          (P.hits (P.idx_queue (P.opposite_queue i))).read_id)))
        (P.perfect_score (range_len (P.reads_get_range
          (P.hits (P.idx_queue (P.opposite_queue i))).read_id)))
        (P.perfect_score (range_len (P.reads_o_get_range
          (P.hits (P.idx_queue (P.opposite_queue i))).read_id))) - s))
      (P.min_score (range_len (P.reads_o_get_range
        (P.hits (P.idx_queue (P.opposite_queue i))).read_id)))) P.score_limit := by
  simp only [opposite_threshold, PipelineState.with_hit, Function.update_same,
    target_pair_score]
  rfl

/-- C28: the threshold of the Opposite stream is monotone: with all other inputs
fixed and no `int32` overflow, for anchor scores `s1 <= s2` the `min_score` that
`BestOppositeScoreStream::init_context` computes for `s2` is at most the one for `s1`,
and for values `T1 <= T2` of `compute_target_score` the `min_score` for `T2` is at
least the one for `T1`. -/
theorem opposite_threshold_monotone {σ : Type} (E : Env) (S : SinkOps σ)
    (DP_REPORT_MULTIPLE : Bool) (P : PipelineState) (m_params : ParamsPOD) (i : Nat)
    (context : AlignmentContext σ) :
    let idx := P.idx_queue (P.opposite_queue i)
    let hit := P.hits idx
    let a_len := range_len (P.reads_get_range hit.read_id)
    let o_len := range_len (P.reads_o_get_range hit.read_id)
    let best := P.best_paired hit.read_id
    let W := wrap32 (P.perfect_score a_len + P.perfect_score o_len)
    (∀ s1 s2 : Int,
      let tps := target_pair_score E best (P.min_score a_len) (P.min_score o_len)
        (P.perfect_score a_len) (P.perfect_score o_len)
      s1 ≤ s2 → -2147483648 ≤ tps - s2 → tps - s1 ≤ 2147483647 →
      (BestOppositeScoreStream.init_context E S DP_REPORT_MULTIPLE
        (P.with_hit idx { hit with score := s2 }) m_params i context).2.min_score ≤
      (BestOppositeScoreStream.init_context E S DP_REPORT_MULTIPLE
        (P.with_hit idx { hit with score := s1 }) m_params i context).2.min_score) ∧
    (∀ f : BestPairedAlignments → Int → Int → Int,
      let T1 := E.compute_target_score best (P.min_score a_len) (P.min_score o_len)
      let T2 := f best (P.min_score a_len) (P.min_score o_len)
      T1 ≤ T2 → -2147483648 ≤ T1 + 1 → T2 + 1 ≤ 2147483647 →
      -2147483648 ≤ min (T1 + 1) W - hit.score →
      min (T2 + 1) W - hit.score ≤ 2147483647 →
      (BestOppositeScoreStream.init_context E S DP_REPORT_MULTIPLE P m_params i
        context).2.min_score ≤
      (BestOppositeScoreStream.init_context { E with compute_target_score := f } S
        DP_REPORT_MULTIPLE P m_params i context).2.min_score) := by
  intro idx hit a_len o_len best W
  refine ⟨?_, ?_⟩
  · intro s1 s2 tps h12 hlo hhi
    rw [opposite_min_score_eq, opposite_min_score_eq, opposite_threshold_with_score,
      opposite_threshold_with_score]
    have e1 : wrap32 (tps - s1) = tps - s1 := by unfold wrap32; omega
    have e2 : wrap32 (tps - s2) = tps - s2 := by unfold wrap32; omega
    show max (max (wrap32 (tps - s2)) _) _ ≤ max (max (wrap32 (tps - s1)) _) _
    rw [e1, e2]
    omega
  · intro f T1 T2 h12 hlo hhi hdlo hdhi
    rw [opposite_min_score_eq, opposite_min_score_eq]
    show max (max (wrap32 (min (wrap32 (T1 + 1)) W - hit.score)) _) _ ≤
      max (max (wrap32 (min (wrap32 (T2 + 1)) W - hit.score)) _) _
    have e1 : wrap32 (T1 + 1) = T1 + 1 := by unfold wrap32; omega
    have e2 : wrap32 (T2 + 1) = T2 + 1 := by unfold wrap32; omega
    rw [e1, e2]
    have e3 : wrap32 (min (T1 + 1) W - hit.score) = min (T1 + 1) W - hit.score := by
      unfold wrap32; omega
    have e4 : wrap32 (min (T2 + 1) W - hit.score) = min (T2 + 1) W - hit.score := by
      unfold wrap32; omega
    rw [e3, e4]
    omega

/-- C28 at a pair with pair floor -60 and score floor -100: raising the anchor score
from -40 to -35 lowers the threshold from -19 to -24, and raising the pair floor from
-60 to -40 at anchor score -20 raises the threshold from -30 to -19. -/
theorem opposite_threshold_monotone_witness :
    ((-40 : Int) ≤ -35 ∧
      (BestOppositeScoreStream.init_context env0 best_sink_ops false
        ((pipeline0 (hit_at 100 0) (-100)).with_hit 0
          { (pipeline0 (hit_at 100 0) (-100)).hits 0 with score := -35 })
        (params0 500 true) 0 ctx0).2.min_score ≤
      (BestOppositeScoreStream.init_context env0 best_sink_ops false
        ((pipeline0 (hit_at 100 0) (-100)).with_hit 0
          { (pipeline0 (hit_at 100 0) (-100)).hits 0 with score := -40 })
        (params0 500 true) 0 ctx0).2.min_score) ∧
    ((BestOppositeScoreStream.init_context env0 best_sink_ops false
        ((pipeline0 (hit_at 100 0) (-100)).with_hit 0
          { (pipeline0 (hit_at 100 0) (-100)).hits 0 with score := -35 })
        (params0 500 true) 0 ctx0).2.min_score = -24 ∧
      (BestOppositeScoreStream.init_context env0 best_sink_ops false
        ((pipeline0 (hit_at 100 0) (-100)).with_hit 0
          { (pipeline0 (hit_at 100 0) (-100)).hits 0 with score := -40 })
        (params0 500 true) 0 ctx0).2.min_score = -19) ∧
    ((BestOppositeScoreStream.init_context env0 best_sink_ops false
        (pipeline0 (hit_at 100 (-20)) (-100)) (params0 500 true) 0 ctx0).2.min_score ≤
      (BestOppositeScoreStream.init_context
        { env0 with compute_target_score := fun _ a o => a + o + 20 } best_sink_ops false
        (pipeline0 (hit_at 100 (-20)) (-100)) (params0 500 true) 0 ctx0).2.min_score) ∧
    ((BestOppositeScoreStream.init_context env0 best_sink_ops false
        (pipeline0 (hit_at 100 (-20)) (-100)) (params0 500 true) 0 ctx0).2.min_score = -30 ∧
      (BestOppositeScoreStream.init_context
        { env0 with compute_target_score := fun _ a o => a + o + 20 } best_sink_ops false
        (pipeline0 (hit_at 100 (-20)) (-100)) (params0 500 true) 0 ctx0).2.min_score = -19) :=
  ⟨⟨by decide,
    (opposite_threshold_monotone env0 best_sink_ops false (pipeline0 (hit_at 100 0) (-100))
      (params0 500 true) 0 ctx0).1 (-40) (-35) (by decide) (by decide) (by decide)⟩,
   ⟨by decide, by decide⟩,
   (opposite_threshold_monotone env0 best_sink_ops false (pipeline0 (hit_at 100 (-20)) (-100))
      (params0 500 true) 0 ctx0).2 (fun _ a o => a + o + 20) (by decide) (by decide)
      (by decide) (by decide) (by decide),
   ⟨by decide, by decide⟩⟩

/-- The Best `init_context` assigns every field of the context: its result does not
depend on what the context held before. -/
theorem best_init_ignores_prior (E : Env) (band : Nat) (P : PipelineState) (i : Nat)
    (c1 c2 : AlignmentContext BestSink) :
    BestScoreStream.init_context E band P i c1 = BestScoreStream.init_context E band P i c2 :=
  rfl

/-- C14, evaluation of the code: on `pipeline_two`, whose item 0 is skipped by the
Anchor stream as already visited, an Anchor round that takes the items in the order
0, 1 on one context object leaves hit 1 with its old score 0 (item 1 finds
`min_score = 2147483647` in the context and is skipped), while a round that takes
item 1 first leaves hit 1 with score -6; the pipeline state, the DP step and the
items are the same.  The Best round on the same context objects leaves score -6 in
hit 1 in both orders. -/
theorem anchor_round_depends_on_order :
    (prior_carried 0 = prior_fresh 0) ∧
    (prior_carried 1).min_score = 2147483647 ∧ (prior_fresh 1).min_score = 0 ∧
    List.Perm [0, 1] [1, 0] ∧
    (pipeline_two (-30)).idx_queue 0 ≠ (pipeline_two (-30)).idx_queue 1 ∧
    ((run_items (BestAnchorScoreStream.item env0 15 dp0 prior_carried) [0, 1]
      (pipeline_two (-30))).hits 1).score = 0 ∧
    ((run_items (BestAnchorScoreStream.item env0 15 dp0 prior_fresh) [1, 0]
      (pipeline_two (-30))).hits 1).score = -6 ∧
    ((run_items (BestAnchorScoreStream.item env0 15 dp0 prior_carried) [0, 1]
      (pipeline_two (-30))).hits 0).score =
    ((run_items (BestAnchorScoreStream.item env0 15 dp0 prior_fresh) [1, 0]
      (pipeline_two (-30))).hits 0).score ∧
    ((run_items (BestScoreStream.item env0 15 dp0 prior_carried) [0, 1]
      (pipeline_two (-30))).hits 1).score = -6 ∧
    ((run_items (BestScoreStream.item env0 15 dp0 prior_fresh) [1, 0]
      (pipeline_two (-30))).hits 1).score = -6 :=
  ⟨rfl, by decide⟩

/-- C27, counterexample: with perfect scores 100, worst scores 20, score floor 20 and
`compute_target_score = -2147483648`, the preconditions hold (`a_worst <= a_optimal`,
`score_limit <= a_optimal`, and the sums `T + 1 = -2147483647` and
`a_optimal + o_optimal = 200` are representable), but the `int32` difference
`min(T + 1, 200) - 100` wraps to 2147483549: the threshold is 2147483549, above
`a_optimal = 100`, and `BestAnchorScoreStream::init_context` accepts the item with
that `min_score`. -/
theorem anchor_threshold_difference_wraps :
    ((pipeline_local (hit_at 100 0) 20).min_score 50 ≤
        (pipeline_local (hit_at 100 0) 20).perfect_score 50 ∧
      (pipeline_local (hit_at 100 0) 20).score_limit ≤
        (pipeline_local (hit_at 100 0) 20).perfect_score 50 ∧
      range_len ((pipeline_local (hit_at 100 0) 20).reads_get_range 0) = 50 ∧
      range_len ((pipeline_local (hit_at 100 0) 20).reads_o_get_range 0) = 50) ∧
    (env_least_floor.compute_target_score
        ((pipeline_local (hit_at 100 0) 20).best_paired 0) 20 20 = -2147483648 ∧
      -2147483648 ≤ (-2147483648 : Int) + 1 ∧ (-2147483648 : Int) + 1 ≤ 2147483647 ∧
      wrap32 (-2147483648 + 1) = -2147483648 + 1 ∧
      -2147483648 ≤ (100 : Int) + 100 ∧ (100 : Int) + 100 ≤ 2147483647 ∧
      wrap32 (100 + 100) = 100 + 100) ∧
    max (max (wrap32 (min (wrap32 (-2147483648 + 1)) (wrap32 (100 + 100)) - 100)) 20) 20
      = 2147483549 ∧
    ¬ (max (max (wrap32 (min (wrap32 (-2147483648 + 1)) (wrap32 (100 + 100)) - 100)) 20) 20
      ≤ (pipeline_local (hit_at 100 0) 20).perfect_score 50) ∧
    (BestAnchorScoreStream.init_context env_least_floor 15
      (pipeline_local (hit_at 100 0) 20) 0 ctx0).1 = true ∧
    (BestAnchorScoreStream.init_context env_least_floor 15
      (pipeline_local (hit_at 100 0) 20) 0 ctx0).2.min_score = 2147483549 := by
  decide

end cuda
end bowtie2
end nvbio
